import Mathlib

/-!
# AURDriverOpenCV: a shallow embedding of the threaded camera-capture driver

The development embeds `AURDriverOpenCV.cpp` (class `UAURDriverOpenCV` and its
worker `FWorkerRunnable`) as state-passing functions.  Side effects that the
properties talk about (log lines, lock operations, calls into collaborators,
notifications) are recorded in an append-only trace held in the driver state.

Collaborators whose code lives outside `AURDriverOpenCV.cpp` (the calibration
process, the marker tracker, the frame allocator, the intrinsics rescaling) are
parameters collected in `Collaborators`; their state types are the type
parameters `σ` (calibration process) and `τ` (tracker).
-/

namespace AUR

/-! ## Data model -/

/-- Integer point `FIntPoint` (a resolution: `X` is the width, `Y` the height). -/
structure FIntPoint where
  X : Int
  Y : Int
deriving DecidableEq, Repr

/-- Display pixel `FColor`: four 8-bit channels. -/
structure FColor where
  R : Nat
  G : Nat
  B : Nat
  A : Nat
deriving DecidableEq, Repr

/-- Raw pixel `cv::Vec3b`: three 8-bit channels, read as `val[0]`, `val[1]`, `val[2]`. -/
structure Vec3b where
  val : Fin 3 → Nat

/-- Captured frame `cv::Mat` of type `CV_8UC3`; `pixelAt r c` is `at<cv::Vec3b>(r, c)`. -/
structure Mat where
  rows : Nat
  cols : Nat
  pixelAt : Nat → Nat → Vec3b

/-- Result of `cv::Mat::size()`. -/
structure MatSize where
  width : Nat
  height : Nat
deriving DecidableEq, Repr

/-- Method `cv::Mat::size()`: the width is the number of columns, the height the number of rows. -/
def Mat.size (m : Mat) : MatSize :=
  { width := m.cols, height := m.rows }

/-- Camera pose `FTransform`; the numeric payload is carried around and never inspected. -/
structure FTransform where
  data : List Int
deriving DecidableEq, Repr

/-- Camera properties `FOpenCVCameraProperties`: the resolution and the numeric intrinsics
(field of view, camera matrix, distortion), the latter carried as an uninspected payload. -/
structure FOpenCVCameraProperties where
  Resolution : FIntPoint
  Intrinsics : List Int
deriving DecidableEq, Repr

/-- Video frame `FAURVideoFrame`: its resolution and the pixel storage behind
`Image.GetData()`, addressed by the offset from that pointer. -/
structure FAURVideoFrame where
  FrameResolution : FIntPoint
  Image : Nat → FColor

/-! ## Trace events -/

/-- Verbosity of a `UE_LOG` line. -/
inductive Verbosity where
  | Log
  | Warning
  | Error
deriving DecidableEq, Repr

/-- The `UE_LOG` lines of `AURDriverOpenCV.cpp`, with their arguments. -/
inductive LogLine where
  | calibrationLoaded (path : String)
  | calibrationLoadFailed (path : String)
  | fallbackLoaded (path : String)
  | fallbackLoadFailed (path : String)
  | calibrationResolutionDiffers
  | workerInit
  | tryingToOpen (cameraIndex : Int)
  | cameraReturnedResolution (camX camY reqX reqY : Int)
  | failedToOpen
  | workerStart
  | unexpectedFrameSize (width height : Nat) (resX resY : Int)
  | workerEnds
deriving DecidableEq, Repr

/-- The three critical sections of the driver. -/
inductive Lock where
  | CalibrationLock
  | FrameLock
  | OrientationLock
deriving DecidableEq, Repr

/-- What an observer of the driver sees when a notification fires. -/
structure Observed where
  bConnected : Bool
  bCalibrated : Bool
  bCalibrationInProgress : Bool
  CameraProperties : FOpenCVCameraProperties
  SavedCalibration : Option FOpenCVCameraProperties
deriving DecidableEq, Repr

/-- Observable actions of the driver and its worker, in program order. -/
inductive Event where
  | log (v : Verbosity) (line : LogLine)
  | acquire (l : Lock)
  | release (l : Lock)
  | loadFromFile (path : String) (ok : Bool)
  | saveToFile (path : String)
  | printToLog
  | trackerSetCameraProperties
  | setFrameResolution (res : FIntPoint)
  | notifyConnectionStatusChange (seen : Observed)
  | notifyCameraParametersChange (seen : Observed)
  | notifyCalibrationStatusChange (seen : Observed)
  | calibrationReset
  | isCalibrationInProgress (answer : Bool)
  | processFrame
  | isFinished (answer : Bool)
  | detectMarkers (found : Bool)
  | storeNewOrientation
  | writePixel (index row col : Nat)
  | storeWorkerFrame
  | openCapture (opened : Bool)
  | captureFrame
  | releaseCapture
deriving DecidableEq, Repr

/-! ## Collaborators and state -/

/-- Behaviour of the code outside `AURDriverOpenCV.cpp` that the driver calls. -/
structure Collaborators (σ τ : Type) where
  /-- Intrinsics after `FOpenCVCameraProperties::SetResolution`, from the old and new resolution. -/
  rescaleIntrinsics : FIntPoint → FIntPoint → List Int → List Int
  /-- Method `CalibrationProcess.Reset()`. -/
  calibReset : σ → σ
  /-- Method `CalibrationProcess.ProcessFrame(frame, time)`. -/
  calibProcessFrame : σ → Mat → Int → σ
  /-- Method `CalibrationProcess.IsFinished()`. -/
  calibIsFinished : σ → Bool
  /-- Method `CalibrationProcess.GetCameraProperties()`. -/
  calibGetCameraProperties : σ → FOpenCVCameraProperties
  /-- Method `Tracker.SetCameraProperties(properties)`. -/
  trackerSetCameraProperties : τ → FOpenCVCameraProperties → τ
  /-- Method `Tracker.DetectMarkers(frame, out transform)`. -/
  trackerDetectMarkers : τ → Mat → τ × Bool × FTransform
  /-- Pixel storage of a frame after `FAURVideoFrame::SetResolution`, from the frame before. -/
  resizeImage : FIntPoint → FAURVideoFrame → Nat → FColor

/-- The capture device behind `cv::VideoCapture`: whether it opens, and the resolution it
reports (already rounded to integers) after the given one was requested. -/
structure CaptureDevice where
  isOpened : Bool
  reportedResolution : FIntPoint → FIntPoint

/-- State of `UAURDriverOpenCV` (with the members inherited from `UAURDriverThreaded` and
`UAURDriver` that the code uses), the calibration files it reads and writes, and the trace. -/
structure UAURDriverOpenCV (σ τ : Type) where
  CameraIndex : Int
  Resolution : FIntPoint
  CameraProperties : FOpenCVCameraProperties
  bCalibrated : Bool
  bCalibrationInProgress : Bool
  bConnected : Bool
  bPerformOrientationTracking : Bool
  DiagnosticText : String
  CalibrationProcess : σ
  Tracker : τ
  CurrentOrientation : FTransform
  bNewOrientationReady : Bool
  FrameInstances : Fin 3 → FAURVideoFrame
  WorkerFrame : Fin 3
  AvailableFrame : Fin 3
  PublishedFrame : Fin 3
  bNewFrameReady : Bool
  CalibrationFileFullPath : String
  CalibrationFallbackFileFullPath : String
  Files : String → Option FOpenCVCameraProperties
  Trace : List Event

/-- State of `UAURDriverOpenCV::FWorkerRunnable`; `Driver` stands for the driver the
pointer of the same name refers to. -/
structure FWorkerRunnable (σ τ : Type) where
  Driver : UAURDriverOpenCV σ τ
  bContinue : Bool
  CapturedFrame : Mat
  VideoCaptureOpened : Bool

/-- One turn of the worker loop as seen from outside: the frame the device delivers, the
value of `WorldReference->RealTimeSeconds`, and whether `Stop()` is called by the other
thread during the turn. -/
structure LoopInput where
  frame : Mat
  time : Int
  stop : Bool

variable {σ τ : Type}

/-- Append one event to the trace. -/
def emit (d : UAURDriverOpenCV σ τ) (e : Event) : UAURDriverOpenCV σ τ :=
  { d with Trace := d.Trace ++ [e] }

/-- The events appended to the trace between two states. -/
def newEvents (before after : UAURDriverOpenCV σ τ) : List Event :=
  after.Trace.drop before.Trace.length

/-- Snapshot of the observable fields. -/
def observe (d : UAURDriverOpenCV σ τ) : Observed :=
  { bConnected := d.bConnected
    bCalibrated := d.bCalibrated
    bCalibrationInProgress := d.bCalibrationInProgress
    CameraProperties := d.CameraProperties
    SavedCalibration := d.Files d.CalibrationFileFullPath }

/-! ## The pixel conversion loop (`Run`, lines 245-262) -/

/-- State of the conversion loop: the offset of `dest_pixel_ptr` from `Image.GetData()`,
the pixel storage, and the writes performed so far (destination offset, source row,
source column). -/
structure ConvState where
  dest_pixel_ptr : Nat
  Image : Nat → FColor
  Written : List (Nat × Nat × Nat)

/-- Body of the inner loop: the three channel assignments through `dest_pixel_ptr`,
then `dest_pixel_ptr++`. -/
def writePixel (src_pixel : Vec3b) (pixel_r pixel_c : Nat) (s : ConvState) : ConvState :=
  let dest := s.Image s.dest_pixel_ptr
  let dest := { dest with R := src_pixel.val 2 }
  let dest := { dest with G := src_pixel.val 1 }
  let dest := { dest with B := src_pixel.val 0 }
  { dest_pixel_ptr := s.dest_pixel_ptr + 1
    Image := Function.update s.Image s.dest_pixel_ptr dest
    Written := s.Written ++ [(s.dest_pixel_ptr, pixel_r, pixel_c)] }

/-- Inner loop `for (pixel_c = 0; pixel_c < CapturedFrame.cols; pixel_c++)`. -/
def convertRow (frame : Mat) (pixel_r : Nat) (s : ConvState) : ConvState :=
  (List.range frame.cols).foldl
    (fun s pixel_c => writePixel (frame.pixelAt pixel_r pixel_c) pixel_r pixel_c s) s

/-- Outer loop `for (pixel_r = 0; pixel_r < CapturedFrame.rows; pixel_r++)`, started with
`dest_pixel_ptr = Image.GetData()`. -/
def convertFrame (frame : Mat) (image : Nat → FColor) : ConvState :=
  (List.range frame.rows).foldl (fun s pixel_r => convertRow frame pixel_r s)
    { dest_pixel_ptr := 0, Image := image, Written := [] }

/-! ## Operations declared outside `AURDriverOpenCV.cpp` -/

/-- Modelled from the spec: `UAURDriverThreaded::NotifyConnectionStatusChange` is only declared
in `AURDriverThreaded.h`; it invokes the connection-status notification hook, recorded
here with what the observer sees at that moment. -/
def NotifyConnectionStatusChange (d : UAURDriverOpenCV σ τ) : UAURDriverOpenCV σ τ :=
  emit d (.notifyConnectionStatusChange (observe d))

/-- Modelled from the spec: `UAURDriverThreaded::NotifyCameraParametersChange` is only declared
in `AURDriverThreaded.h`; it invokes the camera-parameters notification hook. -/
def NotifyCameraParametersChange (d : UAURDriverOpenCV σ τ) : UAURDriverOpenCV σ τ :=
  emit d (.notifyCameraParametersChange (observe d))

/-- Modelled from the spec: `UAURDriverThreaded::NotifyCalibrationStatusChange` is only declared
in `AURDriverThreaded.h`; it invokes the calibration-status notification hook. -/
def NotifyCalibrationStatusChange (d : UAURDriverOpenCV σ τ) : UAURDriverOpenCV σ τ :=
  emit d (.notifyCalibrationStatusChange (observe d))

/-- Modelled from the spec: `UAURDriverThreaded::SetFrameResolution` is only declared in
`AURDriverThreaded.h` ("Resizes frames to fit the resolution"); all three frame buffers
are reallocated at the new size and the role assignment is kept. -/
def SetFrameResolution (env : Collaborators σ τ) (d : UAURDriverOpenCV σ τ)
    (new_res : FIntPoint) : UAURDriverOpenCV σ τ :=
  emit
    { d with
      FrameInstances := fun i =>
        { FrameResolution := new_res
          Image := env.resizeImage new_res (d.FrameInstances i) } }
    (.setFrameResolution new_res)

/-- Modelled from the spec: `UAURDriverThreaded::StoreWorkerFrame` is only declared in
`AURDriverThreaded.h` ("switched the publicly available frame with the one held by
background thread"); under the frame lock the worker and available roles are swapped and
the new-frame flag is raised. -/
def StoreWorkerFrame (d : UAURDriverOpenCV σ τ) : UAURDriverOpenCV σ τ :=
  let d := emit d (.acquire .FrameLock)
  let d := emit d .storeWorkerFrame
  let d := { d with WorkerFrame := d.AvailableFrame, AvailableFrame := d.WorkerFrame }
  let d := { d with bNewFrameReady := true }
  emit d (.release .FrameLock)

/-- Modelled from the spec: `UAURDriverThreaded::StoreNewOrientation` is only declared in
`AURDriverThreaded.h`; under the orientation lock the stored pose is overwritten and the
new-data flag is raised. -/
def StoreNewOrientation (d : UAURDriverOpenCV σ τ) (measurement : FTransform) :
    UAURDriverOpenCV σ τ :=
  let d := emit d (.acquire .OrientationLock)
  let d := emit d .storeNewOrientation
  let d := { d with CurrentOrientation := measurement, bNewOrientationReady := true }
  emit d (.release .OrientationLock)

/-- Modelled from the spec: `UAURDriver::IsCalibrationInProgress` is not in the sources; it
reads the `bCalibrationInProgress` flag that `StartCalibration` and `CancelCalibration` flip. -/
def IsCalibrationInProgress (d : UAURDriverOpenCV σ τ) : Bool :=
  d.bCalibrationInProgress

/-- Modelled from the spec: `FOpenCVCameraProperties::SetResolution` is not in the sources; it
records the new resolution and rescales the intrinsics to it. -/
def SetResolution (env : Collaborators σ τ) (p : FOpenCVCameraProperties)
    (new_res : FIntPoint) : FOpenCVCameraProperties :=
  { Resolution := new_res
    Intrinsics := env.rescaleIntrinsics p.Resolution new_res p.Intrinsics }

/-- Modelled from the spec: `FOpenCVCameraProperties::LoadFromFile` is not in the sources; when
the file at the path holds camera properties they replace `CameraProperties` and the
call answers true, otherwise `CameraProperties` is kept and it answers false. -/
def LoadFromFile (d : UAURDriverOpenCV σ τ) (file_path : String) :
    UAURDriverOpenCV σ τ × Bool :=
  match d.Files file_path with
  | some p => (emit { d with CameraProperties := p } (.loadFromFile file_path true), true)
  | none => (emit d (.loadFromFile file_path false), false)

/-- Modelled from the spec: `FOpenCVCameraProperties::SaveToFile` is not in the sources; it
writes `CameraProperties` to the file at the path. -/
def SaveToFile (d : UAURDriverOpenCV σ τ) (file_path : String) : UAURDriverOpenCV σ τ :=
  emit { d with Files := Function.update d.Files file_path (some d.CameraProperties) }
    (.saveToFile file_path)

/-- Modelled from the spec: `GetCalibrationFileFullPath` is not in the sources; it answers the
primary calibration path. -/
def GetCalibrationFileFullPath (d : UAURDriverOpenCV σ τ) : String :=
  d.CalibrationFileFullPath

/-- Modelled from the spec: `GetCalibrationFallbackFileFullPath` is not in the sources; it
answers the secondary calibration path. -/
def GetCalibrationFallbackFileFullPath (d : UAURDriverOpenCV σ τ) : String :=
  d.CalibrationFallbackFileFullPath

/-! ## `UAURDriverOpenCV` -/

/-- Method `UAURDriverOpenCV::GetResolution` (lines 107-110). -/
def GetResolution (d : UAURDriverOpenCV σ τ) : FIntPoint :=
  d.CameraProperties.Resolution

/-- Method `UAURDriverOpenCV::GetDiagnosticText` (lines 142-145). -/
def GetDiagnosticText (d : UAURDriverOpenCV σ τ) : String :=
  d.DiagnosticText

/-- Method `UAURDriverOpenCV::OnCameraPropertiesChange` (lines 89-100). -/
def OnCameraPropertiesChange (env : Collaborators σ τ) (d : UAURDriverOpenCV σ τ) :
    UAURDriverOpenCV σ τ :=
  let d := emit d .printToLog
  let d := emit { d with Tracker := env.trackerSetCameraProperties d.Tracker d.CameraProperties }
    .trackerSetCameraProperties
  let d := SetFrameResolution env d (GetResolution d)
  NotifyCameraParametersChange d

/-- Method `UAURDriverOpenCV::LoadCalibrationFile` (lines 42-73). -/
def LoadCalibrationFile (env : Collaborators σ τ) (d : UAURDriverOpenCV σ τ) :
    UAURDriverOpenCV σ τ :=
  let calib_file_path := GetCalibrationFileFullPath d
  let r := LoadFromFile d calib_file_path
  let d := r.1
  let d :=
    if r.2 then
      let d := emit d (.log .Log (.calibrationLoaded calib_file_path))
      { d with bCalibrated := true }
    else
      let d := emit d (.log .Log (.calibrationLoadFailed calib_file_path))
      { d with bCalibrated := false }
  let calib_file_path := GetCalibrationFallbackFileFullPath d
  let r := LoadFromFile d calib_file_path
  let d := r.1
  let d :=
    if r.2 then
      emit d (.log .Log (.fallbackLoaded calib_file_path))
    else
      emit d (.log .Log (.fallbackLoadFailed calib_file_path))
  let d :=
    if d.CameraProperties.Resolution ≠ d.Resolution then
      let d := emit d (.log .Warning .calibrationResolutionDiffers)
      { d with CameraProperties := SetResolution env d.CameraProperties d.Resolution }
    else d
  OnCameraPropertiesChange env d

/-- Method `UAURDriverOpenCV::OnCalibrationFinished` (lines 75-87). -/
def OnCalibrationFinished (env : Collaborators σ τ) (d : UAURDriverOpenCV σ τ) :
    UAURDriverOpenCV σ τ :=
  let d := { d with CameraProperties := env.calibGetCameraProperties d.CalibrationProcess }
  let d := { d with bCalibrated := true }
  let d := { d with bCalibrationInProgress := false }
  let d := SaveToFile d (GetCalibrationFileFullPath d)
  let d := OnCameraPropertiesChange env d
  NotifyCalibrationStatusChange d

/-- Method `UAURDriverOpenCV::StartCalibration` (lines 122-130); the named `FScopeLock` holds
`CalibrationLock` until the function returns. -/
def StartCalibration (env : Collaborators σ τ) (d : UAURDriverOpenCV σ τ) :
    UAURDriverOpenCV σ τ :=
  let d := emit d (.acquire .CalibrationLock)
  let d := emit { d with CalibrationProcess := env.calibReset d.CalibrationProcess }
    .calibrationReset
  let d := { d with bCalibrationInProgress := true }
  let d := NotifyCalibrationStatusChange d
  emit d (.release .CalibrationLock)

/-- Method `UAURDriverOpenCV::CancelCalibration` (lines 132-140); the named `FScopeLock` holds
`CalibrationLock` until the function returns. -/
def CancelCalibration (env : Collaborators σ τ) (d : UAURDriverOpenCV σ τ) :
    UAURDriverOpenCV σ τ :=
  let d := emit d (.acquire .CalibrationLock)
  let d := emit { d with CalibrationProcess := env.calibReset d.CalibrationProcess }
    .calibrationReset
  let d := { d with bCalibrationInProgress := false }
  let d := NotifyCalibrationStatusChange d
  emit d (.release .CalibrationLock)

/-! ## `UAURDriverOpenCV::FWorkerRunnable` -/

/-- Method `FWorkerRunnable::Init` (lines 154-159). -/
def Init (w : FWorkerRunnable σ τ) : FWorkerRunnable σ τ × Bool :=
  let w := { w with bContinue := true }
  let w := { w with Driver := emit w.Driver (.log .Log .workerInit) }
  (w, true)

/-- Method `FWorkerRunnable::Stop` (lines 282-285). -/
def Stop (w : FWorkerRunnable σ τ) : FWorkerRunnable σ τ :=
  { w with bContinue := false }

/-- Start of `FWorkerRunnable::Run` (lines 165-200): open the capture device and, when it
opened, negotiate the resolution and announce the connection. -/
def Run_open (env : Collaborators σ τ) (device : CaptureDevice) (w : FWorkerRunnable σ τ) :
    FWorkerRunnable σ τ :=
  let w := { w with Driver := emit w.Driver (.log .Log (.tryingToOpen w.Driver.CameraIndex)) }
  let w := { w with
    VideoCaptureOpened := device.isOpened
    Driver := emit w.Driver (.openCapture device.isOpened) }
  let w :=
    if w.VideoCaptureOpened then
      let d := w.Driver
      let camera_res := device.reportedResolution d.Resolution
      let d :=
        if camera_res ≠ d.Resolution then
          emit d (.log .Warning
            (.cameraReturnedResolution camera_res.X camera_res.Y d.Resolution.X d.Resolution.Y))
        else d
      let d := { d with Resolution := camera_res }
      let d := { d with CameraProperties := SetResolution env d.CameraProperties d.Resolution }
      let d := OnCameraPropertiesChange env d
      let d := { d with bConnected := true }
      let d := NotifyConnectionStatusChange d
      { w with Driver := d }
    else
      let w := { w with Driver := emit w.Driver (.log .Error .failedToOpen) }
      { w with bContinue := false }
  { w with Driver := emit w.Driver (.log .Log .workerStart) }

/-- Calibration branch of the loop body (lines 216-225).  The statement
`FScopeLock(&Driver->CalibrationLock);` constructs an unnamed temporary, which is destroyed
at the end of that statement: the lock is acquired and released before `ProcessFrame`. -/
def calibrationStage (env : Collaborators σ τ) (d : UAURDriverOpenCV σ τ) (frame : Mat)
    (time : Int) : UAURDriverOpenCV σ τ :=
  let d := emit d (.isCalibrationInProgress (IsCalibrationInProgress d))
  if IsCalibrationInProgress d then
    let d := emit d (.acquire .CalibrationLock)
    let d := emit d (.release .CalibrationLock)
    let d := emit { d with CalibrationProcess := env.calibProcessFrame d.CalibrationProcess frame time }
      .processFrame
    let d := emit d (.isFinished (env.calibIsFinished d.CalibrationProcess))
    if env.calibIsFinished d.CalibrationProcess then
      OnCalibrationFinished env d
    else d
  else d

/-- Tracking branch of the loop body (lines 226-240). -/
def trackingStage (env : Collaborators σ τ) (d : UAURDriverOpenCV σ τ) (frame : Mat) :
    UAURDriverOpenCV σ τ :=
  if d.bPerformOrientationTracking then
    let r := env.trackerDetectMarkers d.Tracker frame
    let camera_transform := r.2.2
    let markers_detected := r.2.1
    let d := emit { d with Tracker := r.1 } (.detectMarkers markers_detected)
    if markers_detected then
      StoreNewOrientation d camera_transform
    else d
  else d

/-- Publishing part of the loop body (lines 245-264): run the conversion loop on the pixel
storage of the frame `WorkerFrame` points to, then `StoreWorkerFrame`. -/
def publishStage (d : UAURDriverOpenCV σ τ) (frame : Mat) : UAURDriverOpenCV σ τ :=
  let conv := convertFrame frame (d.FrameInstances d.WorkerFrame).Image
  let d := { d with
    FrameInstances := Function.update d.FrameInstances d.WorkerFrame
      { d.FrameInstances d.WorkerFrame with Image := conv.Image }
    Trace := d.Trace ++ conv.Written.map (fun t => Event.writePixel t.1 t.2.1 t.2.2) }
  StoreWorkerFrame d

/-- The size check of line 209: true when the captured frame differs from `Driver->Resolution`
in width or in height. -/
def sizeMismatch (d : UAURDriverOpenCV σ τ) (frame : Mat) : Bool :=
  decide ((frame.size.width : Int) ≠ d.Resolution.X) || decide ((frame.size.height : Int) ≠ d.Resolution.Y)

/-- Body of the `while` loop of `FWorkerRunnable::Run` (lines 204-265). -/
def loopBody (env : Collaborators σ τ) (w : FWorkerRunnable σ τ) (inp : LoopInput) :
    FWorkerRunnable σ τ :=
  let w := { w with CapturedFrame := inp.frame, Driver := emit w.Driver .captureFrame }
  let frame_size := w.CapturedFrame.size
  if sizeMismatch w.Driver w.CapturedFrame then
    { w with Driver := emit w.Driver (.log .Error
        (.unexpectedFrameSize frame_size.width frame_size.height
          w.Driver.Resolution.X w.Driver.Resolution.Y)) }
  else
    let d := calibrationStage env w.Driver w.CapturedFrame inp.time
    let d := trackingStage env d w.CapturedFrame
    let d := publishStage d w.CapturedFrame
    { w with Driver := d }

/-- A call of `Stop()` from the other thread, when the turn has one. -/
def observeStop (inp : LoopInput) (w : FWorkerRunnable σ τ) : FWorkerRunnable σ τ :=
  if inp.stop then Stop w else w

/-- The loop `while (this->bContinue)` of `FWorkerRunnable::Run` (line 202), driven by the turns
the environment provides; `none` when the turns run out while `bContinue` still holds. -/
def Run_loop (env : Collaborators σ τ) :
    List LoopInput → FWorkerRunnable σ τ → Option (FWorkerRunnable σ τ)
  | [], w => if w.bContinue then none else some w
  | inp :: rest, w =>
    if w.bContinue then Run_loop env rest (observeStop inp (loopBody env w inp)) else some w

/-- End of `FWorkerRunnable::Run` (lines 268-279). -/
def Run_close (w : FWorkerRunnable σ τ) : FWorkerRunnable σ τ × Nat :=
  let d := { w.Driver with bConnected := false }
  let d := NotifyConnectionStatusChange d
  let w := { w with Driver := d }
  let w :=
    if w.VideoCaptureOpened then
      { w with VideoCaptureOpened := false, Driver := emit w.Driver .releaseCapture }
    else w
  let w := { w with Driver := emit w.Driver (.log .Log .workerEnds) }
  (w, 0)

/-- Method `FWorkerRunnable::Run` (lines 161-280): the worker and the value it returns. -/
def Run (env : Collaborators σ τ) (device : CaptureDevice) (inputs : List LoopInput)
    (w : FWorkerRunnable σ τ) : Option (FWorkerRunnable σ τ × Nat) :=
  match Run_loop env inputs (Run_open env device w) with
  | some w => some (Run_close w)
  | none => none

/-! ## Reading traces -/

/-- Whether every `processFrame` event of the trace happens while `CalibrationLock` is held,
`held` telling whether it is held at the start. -/
def processFrameUnderLock : Bool → List Event → Bool
  | _, [] => true
  | _, .acquire .CalibrationLock :: rest => processFrameUnderLock true rest
  | _, .release .CalibrationLock :: rest => processFrameUnderLock false rest
  | held, .processFrame :: rest => held && processFrameUnderLock held rest
  | held, _ :: rest => processFrameUnderLock held rest

/-- Whether every `isCalibrationInProgress` decision of the trace is taken while
`CalibrationLock` is held. -/
def decisionUnderLock : Bool → List Event → Bool
  | _, [] => true
  | _, .acquire .CalibrationLock :: rest => decisionUnderLock true rest
  | _, .release .CalibrationLock :: rest => decisionUnderLock false rest
  | held, .isCalibrationInProgress _ :: rest => held && decisionUnderLock held rest
  | held, _ :: rest => decisionUnderLock held rest

/-- The resolution-mismatch warning of `Run` (line 181). -/
def isCameraResolutionWarning : Event → Bool
  | .log .Warning (.cameraReturnedResolution _ _ _ _) => true
  | _ => false

/-- A call of `SetFrameResolution`. -/
def isSetFrameResolution : Event → Bool
  | .setFrameResolution _ => true
  | _ => false

/-- A calibration-status notification. -/
def isCalibrationNotification : Event → Bool
  | .notifyCalibrationStatusChange _ => true
  | _ => false

/-- Any of the three notifications. -/
def isNotification : Event → Bool
  | .notifyConnectionStatusChange _ => true
  | .notifyCameraParametersChange _ => true
  | .notifyCalibrationStatusChange _ => true
  | _ => false

/-- An event of the loop body: acquiring a frame, processing it (calibration, tracking,
orientation), writing a pixel or publishing. -/
def isLoopBodyEvent : Event → Bool
  | .captureFrame => true
  | .isCalibrationInProgress _ => true
  | .processFrame => true
  | .isFinished _ => true
  | .detectMarkers _ => true
  | .storeNewOrientation => true
  | .writePixel _ _ _ => true
  | .storeWorkerFrame => true
  | _ => false

/-! ## Specification-side helpers -/

/-- The pixel a write leaves behind: the three colour channels come from the raw pixel in
reverse order, the alpha channel is the one the destination held. -/
def reorderedOnto (src_pixel : Vec3b) (dest : FColor) : FColor :=
  { R := src_pixel.val 2, G := src_pixel.val 1, B := src_pixel.val 0, A := dest.A }

/-- The writes of a row-major traversal of a `rows` by `cols` frame. -/
def rowMajorWrites (rows cols : Nat) : List (Nat × Nat × Nat) :=
  (List.range rows).flatMap fun r => (List.range cols).map fun c => (r * cols + c, r, c)

/-! ## Concrete inputs -/

/-- The raw pixel with `val[0] = b`, `val[1] = g`, `val[2] = r`. -/
def bgr (b g r : Nat) : Vec3b :=
  { val := fun i => if i.val = 0 then b else if i.val = 1 then g else r }

/-- A frame of the given size all of whose pixels are the given one. -/
def uniformFrame (rows cols : Nat) (p : Vec3b) : Mat :=
  { rows := rows, cols := cols, pixelAt := fun _ _ => p }

/-- Sample collaborators: the calibration process counts the frames it was given and is
finished from the second on, its camera properties carry that count; the tracker finds
no marker; resizing and rescaling keep what they are given. -/
def sampleEnv : Collaborators Nat Unit :=
  { rescaleIntrinsics := fun _ _ l => l
    calibReset := fun _ => 0
    calibProcessFrame := fun n _ _ => n + 1
    calibIsFinished := fun n => decide (2 ≤ n)
    calibGetCameraProperties := fun n => { Resolution := { X := 2, Y := 1 }, Intrinsics := [n] }
    trackerSetCameraProperties := fun t _ => t
    trackerDetectMarkers := fun t _ => (t, false, { data := [] })
    resizeImage := fun _ f => f.Image }

/-- A sample driver at resolution 2 by 1, not calibrating, not tracking, with an empty
diagnostic text, no calibration file, and frame storage whose pixels are all zero. -/
def sampleDriver : UAURDriverOpenCV Nat Unit :=
  { CameraIndex := 0
    Resolution := { X := 2, Y := 1 }
    CameraProperties := { Resolution := { X := 2, Y := 1 }, Intrinsics := [] }
    bCalibrated := false
    bCalibrationInProgress := false
    bConnected := false
    bPerformOrientationTracking := false
    DiagnosticText := ""
    CalibrationProcess := 0
    Tracker := ()
    CurrentOrientation := { data := [] }
    bNewOrientationReady := false
    FrameInstances := fun _ =>
      { FrameResolution := { X := 2, Y := 1 }
        Image := fun _ => { R := 0, G := 0, B := 0, A := 0 } }
    WorkerFrame := 0
    AvailableFrame := 1
    PublishedFrame := 2
    bNewFrameReady := false
    CalibrationFileFullPath := "calibration.xml"
    CalibrationFallbackFileFullPath := "default.xml"
    Files := fun _ => none
    Trace := [] }

/-- A sample worker on `sampleDriver`, after `Init`. -/
def sampleWorker : FWorkerRunnable Nat Unit :=
  { Driver := sampleDriver
    bContinue := true
    CapturedFrame := uniformFrame 0 0 (bgr 0 0 0)
    VideoCaptureOpened := true }

/-- A turn delivering a 2 by 1 frame of the raw pixel (B=10, G=20, R=30). -/
def sampleInput : LoopInput :=
  { frame := uniformFrame 1 2 (bgr 10 20 30), time := 0, stop := false }

/-- A capture device that fails to open. -/
def closedDevice : CaptureDevice :=
  { isOpened := false, reportedResolution := fun requested => requested }

/-- A capture device that opens and only delivers 320 by 240. -/
def smallDevice : CaptureDevice :=
  { isOpened := true, reportedResolution := fun _ => { X := 320, Y := 240 } }

/-- A sample worker whose driver requests 640 by 480. -/
def vgaWorker : FWorkerRunnable Nat Unit :=
  { sampleWorker with
    Driver := { sampleDriver with
      Resolution := { X := 640, Y := 480 }
      CameraProperties := { Resolution := { X := 640, Y := 480 }, Intrinsics := [] } } }

/-- A turn delivering a 3 by 3 frame, which the sample driver does not expect. -/
def oddInput : LoopInput :=
  { frame := uniformFrame 3 3 (bgr 1 2 3), time := 0, stop := false }

/-- The sample driver with both calibration files present: the primary file holds intrinsics
`[1]`, the fallback file intrinsics `[2]`, both at the driver's resolution. -/
def twoFilesDriver : UAURDriverOpenCV Nat Unit :=
  { sampleDriver with
    Files := fun path =>
      if path = "calibration.xml" then
        some { Resolution := { X := 2, Y := 1 }, Intrinsics := [1] }
      else if path = "default.xml" then
        some { Resolution := { X := 2, Y := 1 }, Intrinsics := [2] }
      else none }

/-- The loop body applied to a sequence of turns, one after the other. -/
def processFrames (env : Collaborators σ τ) (w : FWorkerRunnable σ τ)
    (inputs : List LoopInput) : FWorkerRunnable σ τ :=
  inputs.foldl (loopBody env) w

/-- The part of the driver state that calibration is about: the calibration process, the
camera properties, the two calibration flags, and the calibration files. -/
def calibrationView (d : UAURDriverOpenCV σ τ) :
    σ × FOpenCVCameraProperties × Bool × Bool × String × (String → Option FOpenCVCameraProperties) :=
  (d.CalibrationProcess, d.CameraProperties, d.bCalibrated, d.bCalibrationInProgress,
    d.CalibrationFileFullPath, d.Files)

/-- Events of the tracking and publishing parts of the loop body. -/
def isFrameEvent : Event → Bool
  | .detectMarkers _ => true
  | .storeNewOrientation => true
  | .writePixel _ _ _ => true
  | .storeWorkerFrame => true
  | .acquire .OrientationLock => true
  | .release .OrientationLock => true
  | .acquire .FrameLock => true
  | .release .FrameLock => true
  | _ => false

/-- A call of `SaveToFile`. -/
def isSaveToFile : Event → Bool
  | .saveToFile _ => true
  | _ => false

/-- The sample worker while a calibration is in progress. -/
def calibratingWorker : FWorkerRunnable Nat Unit :=
  { sampleWorker with Driver := { sampleDriver with bCalibrationInProgress := true } }

/-- The sample worker while a calibration is in progress that the next frame completes. -/
def finishingWorker : FWorkerRunnable Nat Unit :=
  { sampleWorker with
    Driver := { sampleDriver with bCalibrationInProgress := true, CalibrationProcess := 1 } }

/-! ## The conversion loop -/

theorem writePixel_eq (src_pixel : Vec3b) (r c : Nat) (s : ConvState) :
    writePixel src_pixel r c s =
      { dest_pixel_ptr := s.dest_pixel_ptr + 1
        Image := Function.update s.Image s.dest_pixel_ptr
          (reorderedOnto src_pixel (s.Image s.dest_pixel_ptr))
        Written := s.Written ++ [(s.dest_pixel_ptr, r, c)] } := rfl

theorem convertRow_fold (frame : Mat) (r : Nat) (n : Nat) (s : ConvState) :
    ((List.range n).foldl
        (fun s pixel_c => writePixel (frame.pixelAt r pixel_c) r pixel_c s) s).dest_pixel_ptr
        = s.dest_pixel_ptr + n ∧
    ((List.range n).foldl
        (fun s pixel_c => writePixel (frame.pixelAt r pixel_c) r pixel_c s) s).Written
        = s.Written ++ (List.range n).map (fun c => (s.dest_pixel_ptr + c, r, c)) ∧
    ∀ i, ((List.range n).foldl
        (fun s pixel_c => writePixel (frame.pixelAt r pixel_c) r pixel_c s) s).Image i
        = if s.dest_pixel_ptr ≤ i ∧ i < s.dest_pixel_ptr + n then
            reorderedOnto (frame.pixelAt r (i - s.dest_pixel_ptr)) (s.Image i)
          else s.Image i := by
  induction n with
  | zero =>
    refine ⟨by simp, by simp, fun i => ?_⟩
    have h0 : ¬ (s.dest_pixel_ptr ≤ i ∧ i < s.dest_pixel_ptr + 0) := by omega
    rw [if_neg h0]
    rfl
  | succ n ih =>
    rw [List.range_succ, List.foldl_append]
    simp only [List.foldl_cons, List.foldl_nil]
    generalize (List.range n).foldl
      (fun s pixel_c => writePixel (frame.pixelAt r pixel_c) r pixel_c s) s = s' at ih ⊢
    obtain ⟨hp, hw, hi⟩ := ih
    simp only [writePixel_eq, hp, hw, List.map_append, List.map_cons, List.map_nil,
      List.append_assoc]
    refine ⟨by omega, trivial, fun i => ?_⟩
    by_cases h : i = s.dest_pixel_ptr + n
    · subst h
      have h1 : ¬ (s.dest_pixel_ptr ≤ s.dest_pixel_ptr + n ∧
          s.dest_pixel_ptr + n < s.dest_pixel_ptr + n) := by omega
      have h2 : s.dest_pixel_ptr ≤ s.dest_pixel_ptr + n ∧
          s.dest_pixel_ptr + n < s.dest_pixel_ptr + (n + 1) := by omega
      rw [Function.update_same, hi, if_neg h1, if_pos h2]
      simp
    · rw [Function.update_noteq h, hi]
      by_cases h3 : s.dest_pixel_ptr ≤ i ∧ i < s.dest_pixel_ptr + n
      · have h4 : s.dest_pixel_ptr ≤ i ∧ i < s.dest_pixel_ptr + (n + 1) := by omega
        rw [if_pos h3, if_pos h4]
      · have h4 : ¬ (s.dest_pixel_ptr ≤ i ∧ i < s.dest_pixel_ptr + (n + 1)) := by omega
        rw [if_neg h3, if_neg h4]

theorem convertRow_spec (frame : Mat) (r : Nat) (s : ConvState) :
    (convertRow frame r s).dest_pixel_ptr = s.dest_pixel_ptr + frame.cols ∧
    (convertRow frame r s).Written
        = s.Written ++ (List.range frame.cols).map (fun c => (s.dest_pixel_ptr + c, r, c)) ∧
    ∀ i, (convertRow frame r s).Image i
        = if s.dest_pixel_ptr ≤ i ∧ i < s.dest_pixel_ptr + frame.cols then
            reorderedOnto (frame.pixelAt r (i - s.dest_pixel_ptr)) (s.Image i)
          else s.Image i :=
  convertRow_fold frame r frame.cols s

theorem convertFrame_fold (frame : Mat) (image : Nat → FColor) (m : Nat) :
    ((List.range m).foldl (fun s pixel_r => convertRow frame pixel_r s)
        { dest_pixel_ptr := 0, Image := image, Written := [] }).dest_pixel_ptr
        = m * frame.cols ∧
    ((List.range m).foldl (fun s pixel_r => convertRow frame pixel_r s)
        { dest_pixel_ptr := 0, Image := image, Written := [] }).Written
        = rowMajorWrites m frame.cols ∧
    ∀ i, ((List.range m).foldl (fun s pixel_r => convertRow frame pixel_r s)
        { dest_pixel_ptr := 0, Image := image, Written := [] }).Image i
        = if i < m * frame.cols then
            reorderedOnto (frame.pixelAt (i / frame.cols) (i % frame.cols)) (image i)
          else image i := by
  induction m with
  | zero => simp [rowMajorWrites]
  | succ m ih =>
    obtain ⟨hp, hw, hi⟩ := ih
    rw [List.range_succ, List.foldl_append]
    simp only [List.foldl_cons, List.foldl_nil]
    obtain ⟨rp, rw', ri⟩ := convertRow_spec frame m
      ((List.range m).foldl (fun s pixel_r => convertRow frame pixel_r s)
        { dest_pixel_ptr := 0, Image := image, Written := [] })
    refine ⟨?_, ?_, fun i => ?_⟩
    · rw [rp, hp, Nat.succ_mul]
    · rw [rw', hw, hp]
      simp [rowMajorWrites, List.range_succ, List.flatMap_append]
    · rw [ri, hp, hi, Nat.succ_mul]
      by_cases h1 : i < m * frame.cols
      · have h2 : ¬ (m * frame.cols ≤ i ∧ i < m * frame.cols + frame.cols) := by omega
        have h3 : i < m * frame.cols + frame.cols := by omega
        rw [if_neg h2, if_pos h1, if_pos h3]
      · by_cases h2 : i < m * frame.cols + frame.cols
        · have h3 : m * frame.cols ≤ i ∧ i < m * frame.cols + frame.cols := by omega
          rw [if_pos h3, if_neg h1, if_pos h2]
          have hc : 0 < frame.cols := by
            rcases Nat.eq_zero_or_pos frame.cols with h0 | h0
            · rw [h0] at h2 h1; omega
            · exact h0
          have hd : i / frame.cols = m := by
            apply Nat.div_eq_of_lt_le
            · rw [Nat.mul_comm] at *; omega
            · rw [Nat.succ_mul]; omega
          have hm : i % frame.cols = i - m * frame.cols := by
            have := Nat.div_add_mod i frame.cols
            rw [hd, Nat.mul_comm] at this
            omega
          rw [hd, hm]
        · have h3 : ¬ (m * frame.cols ≤ i ∧ i < m * frame.cols + frame.cols) := by omega
          rw [if_neg h3, if_neg h1, if_neg h2]

theorem convertFrame_spec (frame : Mat) (image : Nat → FColor) :
    (convertFrame frame image).Written = rowMajorWrites frame.rows frame.cols ∧
    ∀ i, (convertFrame frame image).Image i
        = if i < frame.rows * frame.cols then
            reorderedOnto (frame.pixelAt (i / frame.cols) (i % frame.cols)) (image i)
          else image i :=
  ⟨(convertFrame_fold frame image frame.rows).2.1, (convertFrame_fold frame image frame.rows).2.2⟩

theorem rowMajor_index {rows cols r c : Nat} (hr : r < rows) (hc : c < cols) :
    r * cols + c < rows * cols ∧ (r * cols + c) / cols = r ∧ (r * cols + c) % cols = c := by
  have hpos : 0 < cols := by omega
  refine ⟨?_, ?_, ?_⟩
  · have h1 : (r + 1) * cols ≤ rows * cols := Nat.mul_le_mul_right cols hr
    rw [Nat.succ_mul] at h1
    omega
  · rw [Nat.add_comm, Nat.mul_comm, Nat.add_mul_div_left c r hpos, Nat.div_eq_of_lt hc]
    omega
  · rw [Nat.add_comm, Nat.mul_comm, Nat.add_mul_mod_self_left, Nat.mod_eq_of_lt hc]

theorem rowMajorWrites_indices (rows cols : Nat) :
    (rowMajorWrites rows cols).map (fun t => t.1) = List.range (rows * cols) := by
  induction rows with
  | zero => simp [rowMajorWrites]
  | succ m ih =>
    have hm : rowMajorWrites (m + 1) cols
        = rowMajorWrites m cols ++ (List.range cols).map (fun c => (m * cols + c, m, c)) := by
      simp [rowMajorWrites, List.range_succ, List.flatMap_append]
    rw [hm, List.map_append, ih, Nat.succ_mul, List.range_add]
    simp [Function.comp_def]

theorem sizeMismatch_false {d : UAURDriverOpenCV σ τ} {frame : Mat}
    (h : sizeMismatch d frame = false) :
    (frame.cols : Int) = d.Resolution.X ∧ (frame.rows : Int) = d.Resolution.Y := by
  simpa [sizeMismatch, Mat.size] using h

theorem publishStage_frames (d : UAURDriverOpenCV σ τ) (frame : Mat) :
    (publishStage d frame).FrameInstances
      = Function.update d.FrameInstances d.WorkerFrame
          { d.FrameInstances d.WorkerFrame with
            Image := (convertFrame frame (d.FrameInstances d.WorkerFrame).Image).Image } := rfl

theorem loopBody_valid (env : Collaborators σ τ) (w : FWorkerRunnable σ τ) (inp : LoopInput)
    (h : sizeMismatch w.Driver inp.frame = false) :
    loopBody env w inp =
      { w with
        CapturedFrame := inp.frame
        Driver := publishStage
          (trackingStage env
            (calibrationStage env (emit w.Driver .captureFrame) inp.frame inp.time) inp.frame)
          inp.frame } := by
  have h' : sizeMismatch (emit w.Driver .captureFrame) inp.frame = false := h
  simp [loopBody, h']

/-! ## Claims on the conversion loop -/

/-- Claim C1, as amended: for every captured frame that passes the size check and every pixel
position (r, c) in it, the pixel the loop body leaves at offset `r * cols + c` of the
frame that was the worker frame has R equal to the source's channel 2, G equal to
channel 1 and B equal to channel 0, and its alpha is the alpha that destination pixel
held just before the conversion loop. -/
theorem loopBody_publishes_reordered_channels (env : Collaborators σ τ)
    (w : FWorkerRunnable σ τ) (inp : LoopInput) (r c : Nat)
    (hsize : sizeMismatch w.Driver inp.frame = false)
    (hr : r < inp.frame.rows) (hc : c < inp.frame.cols) :
    (((loopBody env w inp).Driver.FrameInstances
        (trackingStage env (calibrationStage env (emit w.Driver .captureFrame)
          inp.frame inp.time) inp.frame).WorkerFrame).Image (r * inp.frame.cols + c)).R
      = (inp.frame.pixelAt r c).val 2 ∧
    (((loopBody env w inp).Driver.FrameInstances
        (trackingStage env (calibrationStage env (emit w.Driver .captureFrame)
          inp.frame inp.time) inp.frame).WorkerFrame).Image (r * inp.frame.cols + c)).G
      = (inp.frame.pixelAt r c).val 1 ∧
    (((loopBody env w inp).Driver.FrameInstances
        (trackingStage env (calibrationStage env (emit w.Driver .captureFrame)
          inp.frame inp.time) inp.frame).WorkerFrame).Image (r * inp.frame.cols + c)).B
      = (inp.frame.pixelAt r c).val 0 ∧
    (((loopBody env w inp).Driver.FrameInstances
        (trackingStage env (calibrationStage env (emit w.Driver .captureFrame)
          inp.frame inp.time) inp.frame).WorkerFrame).Image (r * inp.frame.cols + c)).A
      = (((trackingStage env (calibrationStage env (emit w.Driver .captureFrame)
          inp.frame inp.time) inp.frame).FrameInstances
        (trackingStage env (calibrationStage env (emit w.Driver .captureFrame)
          inp.frame inp.time) inp.frame).WorkerFrame).Image (r * inp.frame.cols + c)).A := by
  obtain ⟨hlt, hdiv, hmod⟩ := rowMajor_index hr hc
  rw [loopBody_valid env w inp hsize]
  simp only [publishStage_frames, Function.update_same]
  rw [(convertFrame_spec inp.frame _).2, if_pos hlt, hdiv, hmod]
  simp [reorderedOnto]

/-- Witness for C1 as amended: the sample turn, at pixel position (0, 1). -/
theorem loopBody_publishes_reordered_channels_witness :
    (((loopBody sampleEnv sampleWorker sampleInput).Driver.FrameInstances
        (trackingStage sampleEnv (calibrationStage sampleEnv (emit sampleWorker.Driver .captureFrame)
          sampleInput.frame sampleInput.time) sampleInput.frame).WorkerFrame).Image
            (0 * sampleInput.frame.cols + 1)).R
      = (sampleInput.frame.pixelAt 0 1).val 2 :=
  (loopBody_publishes_reordered_channels sampleEnv sampleWorker sampleInput 0 1
    (by decide) (by decide) (by decide)).1

/-- Claim C1, counterexample: the sample turn delivers a frame of the raw pixel
(B=10, G=20, R=30) that passes the size check, the worker frame's pixels have alpha 0
beforehand, and the pixel written at offset 0 is (R=30, G=20, B=10, A=0): its alpha is
not 255. -/
theorem loopBody_alpha_not_forced_opaque :
    sizeMismatch sampleWorker.Driver sampleInput.frame = false ∧
    ((loopBody sampleEnv sampleWorker sampleInput).Driver.FrameInstances 0).Image 0
      = { R := 30, G := 20, B := 10, A := 0 } ∧
    (((loopBody sampleEnv sampleWorker sampleInput).Driver.FrameInstances 0).Image 0).A ≠ 255 := by
  refine ⟨by decide, by decide, by decide⟩

theorem newEvents_of_trace {before after : UAURDriverOpenCV σ τ} {evs : List Event}
    (h : after.Trace = before.Trace ++ evs) : newEvents before after = evs := by
  simp [newEvents, h]

theorem publishStage_trace (d : UAURDriverOpenCV σ τ) (frame : Mat) :
    (publishStage d frame).Trace
      = d.Trace ++ ((convertFrame frame (d.FrameInstances d.WorkerFrame).Image).Written.map
            (fun t => Event.writePixel t.1 t.2.1 t.2.2)
          ++ [.acquire .FrameLock, .storeWorkerFrame, .release .FrameLock]) := by
  simp [publishStage, StoreWorkerFrame, emit, List.append_assoc]

/-- Claim C9: for every captured frame that passes the size check (cols = Resolution.X,
rows = Resolution.Y), the conversion loop run by the loop body writes the destination
offsets `r * cols + c`, each from source pixel (r, c), in row-major order and nothing
else before publishing; the offsets written are exactly 0, 1, ..., rows * cols - 1, each
once; their number is Resolution.X * Resolution.Y; every written offset is below that
count; each written pixel takes its colour channels from its source pixel; and no
destination pixel at or beyond that count is modified. -/
theorem conversion_loop_row_major (d : UAURDriverOpenCV σ τ) (frame : Mat)
    (hsize : sizeMismatch d frame = false) :
    newEvents d (publishStage d frame)
      = ((List.range frame.rows).flatMap fun r =>
            (List.range frame.cols).map fun c => Event.writePixel (r * frame.cols + c) r c)
          ++ [.acquire .FrameLock, .storeWorkerFrame, .release .FrameLock] ∧
    (convertFrame frame (d.FrameInstances d.WorkerFrame).Image).Written
      = ((List.range frame.rows).flatMap fun r =>
            (List.range frame.cols).map fun c => (r * frame.cols + c, r, c)) ∧
    (convertFrame frame (d.FrameInstances d.WorkerFrame).Image).Written.map (fun t => t.1)
      = List.range (frame.rows * frame.cols) ∧
    ((convertFrame frame (d.FrameInstances d.WorkerFrame).Image).Written.length : Int)
      = d.Resolution.X * d.Resolution.Y ∧
    (∀ t ∈ (convertFrame frame (d.FrameInstances d.WorkerFrame).Image).Written,
      (t.1 : Int) < d.Resolution.X * d.Resolution.Y) ∧
    (∀ r c, r < frame.rows → c < frame.cols →
      ((publishStage d frame).FrameInstances d.WorkerFrame).Image (r * frame.cols + c)
        = reorderedOnto (frame.pixelAt r c)
            ((d.FrameInstances d.WorkerFrame).Image (r * frame.cols + c))) ∧
    (∀ i : Nat, d.Resolution.X * d.Resolution.Y ≤ (i : Int) →
      ((publishStage d frame).FrameInstances d.WorkerFrame).Image i
        = (d.FrameInstances d.WorkerFrame).Image i) ∧
    (∀ k, k ≠ d.WorkerFrame → (publishStage d frame).FrameInstances k = d.FrameInstances k) := by
  obtain ⟨hX, hY⟩ := sizeMismatch_false hsize
  obtain ⟨hW, hI⟩ := convertFrame_spec frame (d.FrameInstances d.WorkerFrame).Image
  have hidx := rowMajorWrites_indices frame.rows frame.cols
  have hcount : d.Resolution.X * d.Resolution.Y = ((frame.rows * frame.cols : Nat) : Int) := by
    rw [← hX, ← hY]; push_cast; ring
  refine ⟨?_, ?_, ?_, ?_, ?_, ?_, ?_, ?_⟩
  · apply newEvents_of_trace
    rw [publishStage_trace, hW]
    simp [rowMajorWrites, List.map_flatMap, Function.comp_def]
  · rw [hW]; rfl
  · rw [hW]; exact hidx
  · have hlen : (rowMajorWrites frame.rows frame.cols).length = frame.rows * frame.cols := by
      have := congrArg List.length hidx
      simpa using this
    rw [hW, hlen, hcount]
  · intro t ht
    rw [hW] at ht
    have hmem : t.1 ∈ List.range (frame.rows * frame.cols) := by
      rw [← hidx]; exact List.mem_map_of_mem _ ht
    rw [hcount]
    exact_mod_cast List.mem_range.mp hmem
  · intro r c hr hc
    obtain ⟨hlt, hdiv, hmod⟩ := rowMajor_index hr hc
    rw [publishStage_frames, Function.update_same]
    show (convertFrame frame (d.FrameInstances d.WorkerFrame).Image).Image _ = _
    rw [hI, if_pos hlt, hdiv, hmod]
  · intro i hi
    rw [hcount] at hi
    have hge : ¬ i < frame.rows * frame.cols := by
      have : frame.rows * frame.cols ≤ i := by exact_mod_cast hi
      omega
    rw [publishStage_frames, Function.update_same]
    show (convertFrame frame (d.FrameInstances d.WorkerFrame).Image).Image _ = _
    rw [hI, if_neg hge]
  · intro k hk
    rw [publishStage_frames, Function.update_noteq hk]

/-- Witness for C9: the sample driver and the sample 2 by 1 frame. -/
theorem conversion_loop_row_major_witness :
    sizeMismatch sampleDriver sampleInput.frame = false ∧
    (convertFrame sampleInput.frame
        (sampleDriver.FrameInstances sampleDriver.WorkerFrame).Image).Written.map (fun t => t.1)
      = List.range (sampleInput.frame.rows * sampleInput.frame.cols) :=
  ⟨by decide, (conversion_loop_row_major sampleDriver sampleInput.frame (by decide)).2.2.1⟩

/-! ## Claims on the worker's start and on skipped frames -/

theorem sizeMismatch_emit (d : UAURDriverOpenCV σ τ) (e : Event) (frame : Mat) :
    sizeMismatch (emit d e) frame = sizeMismatch d frame := rfl

/-- Claim C3: in every loop turn whose captured frame differs in width or height from the
driver's Resolution, the only events are the frame acquisition and the error log line:
`ProcessFrame` and the tracker are not called, no pixel is written and `StoreWorkerFrame`
is not called; the calibration process, the tracker, the stored orientation, the frame
storage and the frame roles are unchanged; and `bContinue` is left as it was, so that
the loop goes on to the next turn. -/
theorem loopBody_skips_mismatched_frame (env : Collaborators σ τ) (w : FWorkerRunnable σ τ)
    (inp : LoopInput) (hsize : sizeMismatch w.Driver inp.frame = true) :
    newEvents w.Driver (loopBody env w inp).Driver
      = [.captureFrame,
         .log .Error (.unexpectedFrameSize inp.frame.cols inp.frame.rows
            w.Driver.Resolution.X w.Driver.Resolution.Y)] ∧
    Event.processFrame ∉ newEvents w.Driver (loopBody env w inp).Driver ∧
    (∀ found, Event.detectMarkers found ∉ newEvents w.Driver (loopBody env w inp).Driver) ∧
    Event.storeNewOrientation ∉ newEvents w.Driver (loopBody env w inp).Driver ∧
    (∀ i r c, Event.writePixel i r c ∉ newEvents w.Driver (loopBody env w inp).Driver) ∧
    Event.storeWorkerFrame ∉ newEvents w.Driver (loopBody env w inp).Driver ∧
    (loopBody env w inp).Driver.CalibrationProcess = w.Driver.CalibrationProcess ∧
    (loopBody env w inp).Driver.Tracker = w.Driver.Tracker ∧
    (loopBody env w inp).Driver.CurrentOrientation = w.Driver.CurrentOrientation ∧
    (loopBody env w inp).Driver.bNewOrientationReady = w.Driver.bNewOrientationReady ∧
    (loopBody env w inp).Driver.FrameInstances = w.Driver.FrameInstances ∧
    (loopBody env w inp).Driver.WorkerFrame = w.Driver.WorkerFrame ∧
    (loopBody env w inp).Driver.AvailableFrame = w.Driver.AvailableFrame ∧
    (loopBody env w inp).Driver.bNewFrameReady = w.Driver.bNewFrameReady ∧
    (loopBody env w inp).bContinue = w.bContinue ∧
    (∀ rest, w.bContinue = true → inp.stop = false →
      Run_loop env (inp :: rest) w = Run_loop env rest (loopBody env w inp)) := by
  have h' : sizeMismatch (emit w.Driver .captureFrame) inp.frame = true := hsize
  have hbody : loopBody env w inp =
      { w with
        CapturedFrame := inp.frame
        Driver := emit (emit w.Driver .captureFrame)
          (.log .Error (.unexpectedFrameSize inp.frame.cols inp.frame.rows
            w.Driver.Resolution.X w.Driver.Resolution.Y)) } := by
    simp [loopBody, h', Mat.size]
    rfl
  have htrace : newEvents w.Driver (loopBody env w inp).Driver
      = [.captureFrame,
         .log .Error (.unexpectedFrameSize inp.frame.cols inp.frame.rows
            w.Driver.Resolution.X w.Driver.Resolution.Y)] := by
    apply newEvents_of_trace
    rw [hbody]
    simp [emit]
  refine ⟨htrace, ?_, ?_, ?_, ?_, ?_, ?_, ?_, ?_, ?_, ?_, ?_, ?_, ?_, ?_, ?_⟩
  · rw [htrace]; simp
  · intro found; rw [htrace]; simp
  · rw [htrace]; simp
  · intro i r c; rw [htrace]; simp
  · rw [htrace]; simp
  all_goals first
    | (rw [hbody]; done)
    | (rw [hbody]; rfl)
    | (intro rest hc hs
       simp [Run_loop, hc, observeStop, hs])

/-- Witness for C3: the sample worker is handed a 3 by 3 frame while it expects 2 by 1. -/
theorem loopBody_skips_mismatched_frame_witness :
    sizeMismatch sampleWorker.Driver oddInput.frame = true ∧
    (loopBody sampleEnv sampleWorker oddInput).Driver.FrameInstances
      = sampleWorker.Driver.FrameInstances :=
  ⟨by decide,
    (loopBody_skips_mismatched_frame sampleEnv sampleWorker oddInput (by decide)).2.2.2.2.2.2.2.2.2.2.1⟩

/-- Claim C2, as amended: when opening the capture device fails, `Run` returns (with value 0)
whatever turns the environment offers; the connection state is Disconnected when it
returns and the only connection notification reports Disconnected; no event of the loop
body occurs (no frame is acquired, processed or published) and the frame storage, the
stored orientation and the calibration process are unchanged; and `Run` leaves the
diagnostic text as it was. -/
theorem Run_open_failure (env : Collaborators σ τ) (device : CaptureDevice)
    (inputs : List LoopInput) (w : FWorkerRunnable σ τ) (hclosed : device.isOpened = false) :
    ∃ w', Run env device inputs w = some (w', 0) ∧
      w'.Driver.bConnected = false ∧
      newEvents w.Driver w'.Driver
        = [.log .Log (.tryingToOpen w.Driver.CameraIndex),
           .openCapture false,
           .log .Error .failedToOpen,
           .log .Log .workerStart,
           .notifyConnectionStatusChange { observe w.Driver with bConnected := false },
           .log .Log .workerEnds] ∧
      (∀ seen, Event.notifyConnectionStatusChange seen ∈ newEvents w.Driver w'.Driver →
        seen.bConnected = false) ∧
      (∀ e ∈ newEvents w.Driver w'.Driver, isLoopBodyEvent e = false) ∧
      w'.Driver.FrameInstances = w.Driver.FrameInstances ∧
      w'.Driver.CurrentOrientation = w.Driver.CurrentOrientation ∧
      w'.Driver.CalibrationProcess = w.Driver.CalibrationProcess ∧
      GetDiagnosticText w'.Driver = GetDiagnosticText w.Driver := by
  have hopen : Run_open env device w =
      { w with
        VideoCaptureOpened := false
        bContinue := false
        Driver := { w.Driver with
          Trace := w.Driver.Trace ++
            [.log .Log (.tryingToOpen w.Driver.CameraIndex), .openCapture false,
             .log .Error .failedToOpen, .log .Log .workerStart] } } := by
    simp [Run_open, hclosed, emit]
  have hloop : Run_loop env inputs (Run_open env device w) = some (Run_open env device w) := by
    rw [hopen]
    cases inputs <;> simp [Run_loop]
  have htrace : newEvents w.Driver (Run_close (Run_open env device w)).1.Driver
      = [.log .Log (.tryingToOpen w.Driver.CameraIndex),
         .openCapture false,
         .log .Error .failedToOpen,
         .log .Log .workerStart,
         .notifyConnectionStatusChange { observe w.Driver with bConnected := false },
         .log .Log .workerEnds] := by
    apply newEvents_of_trace
    rw [hopen]
    simp [Run_close, NotifyConnectionStatusChange, emit, observe]
  refine ⟨(Run_close (Run_open env device w)).1, ?_, ?_, htrace, ?_, ?_, ?_, ?_, ?_, ?_⟩
  · simp only [Run, hloop]
    rfl
  · rw [hopen]; simp [Run_close, NotifyConnectionStatusChange, emit]
  · intro seen hseen
    rw [htrace] at hseen
    simp at hseen
    rw [hseen]
  · intro e he
    rw [htrace] at he
    simp at he
    rcases he with h | h | h | h | h | h <;> subst h <;> rfl
  · rw [hopen]; simp [Run_close, NotifyConnectionStatusChange, emit]
  · rw [hopen]; simp [Run_close, NotifyConnectionStatusChange, emit]
  · rw [hopen]; simp [Run_close, NotifyConnectionStatusChange, emit]
  · rw [hopen]; simp [Run_close, NotifyConnectionStatusChange, emit, GetDiagnosticText]

/-- Witness for C2 as amended: the sample worker on a device that does not open. -/
theorem Run_open_failure_witness :
    closedDevice.isOpened = false ∧
    ∃ w', Run sampleEnv closedDevice [sampleInput] sampleWorker = some (w', 0) ∧
      w'.Driver.bConnected = false :=
  ⟨rfl, (Run_open_failure sampleEnv closedDevice [sampleInput] sampleWorker rfl).imp
    fun _ h => ⟨h.1, h.2.1⟩⟩

/-- Claim C2, counterexample: the sample driver has an empty diagnostic text, the device does
not open, `Run` returns, and the diagnostic text is still empty afterwards. -/
theorem Run_open_failure_diagnostic_text_empty :
    closedDevice.isOpened = false ∧
    (Run sampleEnv closedDevice [sampleInput] sampleWorker).map
        (fun r => GetDiagnosticText r.1.Driver) = some "" ∧
    ¬ ∀ w', Run sampleEnv closedDevice [sampleInput] sampleWorker = some (w', 0) →
        GetDiagnosticText w'.Driver ≠ "" := by
  refine ⟨rfl, rfl, ?_⟩
  intro h
  obtain ⟨w', hrun, _, _, _, _, _, _, _, htext⟩ :=
    Run_open_failure sampleEnv closedDevice [sampleInput] sampleWorker rfl
  exact h w' hrun (by rw [htext]; rfl)

theorem Run_open_opened (env : Collaborators σ τ) (device : CaptureDevice)
    (w : FWorkerRunnable σ τ) (hopened : device.isOpened = true) :
    (Run_open env device w).Driver.Resolution = device.reportedResolution w.Driver.Resolution ∧
    (Run_open env device w).Driver.CameraProperties
      = SetResolution env w.Driver.CameraProperties
          (device.reportedResolution w.Driver.Resolution) ∧
    (Run_open env device w).Driver.FrameInstances
      = (fun i =>
          { FrameResolution := device.reportedResolution w.Driver.Resolution
            Image := env.resizeImage (device.reportedResolution w.Driver.Resolution)
              (w.Driver.FrameInstances i) }) ∧
    (Run_open env device w).Driver.bConnected = true ∧
    (Run_open env device w).Driver.Trace
      = w.Driver.Trace ++
        ([.log .Log (.tryingToOpen w.Driver.CameraIndex), .openCapture true] ++
          (if device.reportedResolution w.Driver.Resolution ≠ w.Driver.Resolution then
            [.log .Warning (.cameraReturnedResolution
              (device.reportedResolution w.Driver.Resolution).X
              (device.reportedResolution w.Driver.Resolution).Y
              w.Driver.Resolution.X w.Driver.Resolution.Y)]
           else []) ++
          [.printToLog, .trackerSetCameraProperties,
           .setFrameResolution (device.reportedResolution w.Driver.Resolution),
           .notifyCameraParametersChange
             { observe w.Driver with
               CameraProperties := SetResolution env w.Driver.CameraProperties
                 (device.reportedResolution w.Driver.Resolution) },
           .notifyConnectionStatusChange
             { observe w.Driver with
               bConnected := true
               CameraProperties := SetResolution env w.Driver.CameraProperties
                 (device.reportedResolution w.Driver.Resolution) },
           .log .Log .workerStart]) := by
  by_cases hres : device.reportedResolution w.Driver.Resolution = w.Driver.Resolution
  · simp [Run_open, hopened, hres, emit, OnCameraPropertiesChange, SetFrameResolution,
      GetResolution, NotifyCameraParametersChange, NotifyConnectionStatusChange, observe,
      SetResolution]
  · simp [Run_open, hopened, hres, emit, OnCameraPropertiesChange, SetFrameResolution,
      GetResolution, NotifyCameraParametersChange, NotifyConnectionStatusChange, observe,
      SetResolution]

/-- Claim C5: when the device opens, then after the start of `Run` the driver's Resolution and
`CameraProperties.Resolution` equal the resolution the device reports, `SetFrameResolution`
is called exactly once, with that resolution, and each of the three frame slots has it;
the resolution-mismatch warning is emitted exactly once when the reported resolution
differs from the requested one and not at all when they are equal. -/
theorem Run_open_negotiates_resolution (env : Collaborators σ τ) (device : CaptureDevice)
    (w : FWorkerRunnable σ τ) (hopened : device.isOpened = true) :
    (Run_open env device w).Driver.Resolution = device.reportedResolution w.Driver.Resolution ∧
    (Run_open env device w).Driver.CameraProperties.Resolution
      = device.reportedResolution w.Driver.Resolution ∧
    (newEvents w.Driver (Run_open env device w).Driver).filter isSetFrameResolution
      = [.setFrameResolution (device.reportedResolution w.Driver.Resolution)] ∧
    (∀ i, ((Run_open env device w).Driver.FrameInstances i).FrameResolution
      = device.reportedResolution w.Driver.Resolution) ∧
    (newEvents w.Driver (Run_open env device w).Driver).countP isCameraResolutionWarning
      = (if device.reportedResolution w.Driver.Resolution = w.Driver.Resolution then 0 else 1) ∧
    (device.reportedResolution w.Driver.Resolution ≠ w.Driver.Resolution →
      Event.log .Warning (.cameraReturnedResolution
          (device.reportedResolution w.Driver.Resolution).X
          (device.reportedResolution w.Driver.Resolution).Y
          w.Driver.Resolution.X w.Driver.Resolution.Y)
        ∈ newEvents w.Driver (Run_open env device w).Driver) := by
  obtain ⟨hR, hP, hF, _, hT⟩ := Run_open_opened env device w hopened
  have hN := newEvents_of_trace hT
  refine ⟨hR, ?_, ?_, ?_, ?_, ?_⟩
  · rw [hP]; rfl
  · rw [hN]
    by_cases hres : device.reportedResolution w.Driver.Resolution = w.Driver.Resolution
    · simp [hres, List.filter, isSetFrameResolution]
    · simp [hres, List.filter, isSetFrameResolution]
  · intro i; rw [hF]
  · rw [hN]
    by_cases hres : device.reportedResolution w.Driver.Resolution = w.Driver.Resolution
    · simp [hres, List.countP_cons, isCameraResolutionWarning]
    · simp [hres, List.countP_cons, isCameraResolutionWarning]
  · intro hres
    rw [hN]
    simp [hres]

/-- Witness for C5: 640 by 480 is requested from a device that only delivers 320 by 240. -/
theorem Run_open_negotiates_resolution_witness :
    smallDevice.isOpened = true ∧
    (Run_open sampleEnv smallDevice vgaWorker).Driver.CameraProperties.Resolution
      = { X := 320, Y := 240 } ∧
    (∀ i, ((Run_open sampleEnv smallDevice vgaWorker).Driver.FrameInstances i).FrameResolution
      = { X := 320, Y := 240 }) ∧
    (newEvents vgaWorker.Driver (Run_open sampleEnv smallDevice vgaWorker).Driver).countP
        isCameraResolutionWarning = 1 :=
  ⟨rfl,
    (Run_open_negotiates_resolution sampleEnv smallDevice vgaWorker rfl).2.1,
    (Run_open_negotiates_resolution sampleEnv smallDevice vgaWorker rfl).2.2.2.1,
    (Run_open_negotiates_resolution sampleEnv smallDevice vgaWorker rfl).2.2.2.2.1⟩

/-! ## Claims on `LoadCalibrationFile` -/

theorem LoadCalibrationFile_spec (env : Collaborators σ τ) (d : UAURDriverOpenCV σ τ) :
    (LoadCalibrationFile env d).bCalibrated = (d.Files d.CalibrationFileFullPath).isSome ∧
    (LoadCalibrationFile env d).CameraProperties
      = (if ((d.Files d.CalibrationFallbackFileFullPath).getD
              ((d.Files d.CalibrationFileFullPath).getD d.CameraProperties)).Resolution
            ≠ d.Resolution then
          SetResolution env ((d.Files d.CalibrationFallbackFileFullPath).getD
              ((d.Files d.CalibrationFileFullPath).getD d.CameraProperties)) d.Resolution
         else (d.Files d.CalibrationFallbackFileFullPath).getD
              ((d.Files d.CalibrationFileFullPath).getD d.CameraProperties)) ∧
    (LoadCalibrationFile env d).Resolution = d.Resolution := by
  rcases h1 : d.Files d.CalibrationFileFullPath with _ | p <;>
  rcases h2 : d.Files d.CalibrationFallbackFileFullPath with _ | fb
  · by_cases hres : d.CameraProperties.Resolution = d.Resolution <;>
    simp [LoadCalibrationFile, LoadFromFile, GetCalibrationFileFullPath,
      GetCalibrationFallbackFileFullPath, emit, h1, h2, hres, OnCameraPropertiesChange,
      SetFrameResolution, NotifyCameraParametersChange]
  · by_cases hres : fb.Resolution = d.Resolution <;>
    simp [LoadCalibrationFile, LoadFromFile, GetCalibrationFileFullPath,
      GetCalibrationFallbackFileFullPath, emit, h1, h2, hres, OnCameraPropertiesChange,
      SetFrameResolution, NotifyCameraParametersChange]
  · by_cases hres : p.Resolution = d.Resolution <;>
    simp [LoadCalibrationFile, LoadFromFile, GetCalibrationFileFullPath,
      GetCalibrationFallbackFileFullPath, emit, h1, h2, hres, OnCameraPropertiesChange,
      SetFrameResolution, NotifyCameraParametersChange]
  · by_cases hres : fb.Resolution = d.Resolution <;>
    simp [LoadCalibrationFile, LoadFromFile, GetCalibrationFileFullPath,
      GetCalibrationFallbackFileFullPath, emit, h1, h2, hres, OnCameraPropertiesChange,
      SetFrameResolution, NotifyCameraParametersChange]

theorem LoadFromFile_ok (d : UAURDriverOpenCV σ τ) (file_path : String) :
    (LoadFromFile d file_path).2 = (d.Files file_path).isSome := by
  rcases h : d.Files file_path with _ | p <;> simp [LoadFromFile, h]

/-- Claim C10: after `LoadCalibrationFile` the calibrated flag is true exactly when loading the
primary calibration file succeeded, whatever the fallback load does; when the primary
load fails and the fallback file loads, the driver holds the fallback's camera properties
(rescaled to the driver's Resolution when their resolution differs from it) and reports
itself as not calibrated; and in every case `CameraProperties.Resolution` ends equal to
the driver's Resolution. -/
theorem LoadCalibrationFile_calibrated_iff_primary (env : Collaborators σ τ)
    (d : UAURDriverOpenCV σ τ) :
    ((LoadCalibrationFile env d).bCalibrated = true ↔
      (LoadFromFile d (GetCalibrationFileFullPath d)).2 = true) ∧
    (∀ fb, (LoadFromFile d (GetCalibrationFileFullPath d)).2 = false →
      d.Files (GetCalibrationFallbackFileFullPath d) = some fb →
      (LoadCalibrationFile env d).bCalibrated = false ∧
      (LoadCalibrationFile env d).CameraProperties
        = (if fb.Resolution ≠ d.Resolution then SetResolution env fb d.Resolution else fb)) ∧
    (LoadCalibrationFile env d).CameraProperties.Resolution = d.Resolution ∧
    (LoadCalibrationFile env d).Resolution = d.Resolution := by
  obtain ⟨hC, hP, hR⟩ := LoadCalibrationFile_spec env d
  refine ⟨?_, ?_, ?_, hR⟩
  · rw [hC, LoadFromFile_ok]; rfl
  · intro fb hfail hfb
    rw [LoadFromFile_ok] at hfail
    have hfb' : d.Files d.CalibrationFallbackFileFullPath = some fb := hfb
    refine ⟨?_, ?_⟩
    · rw [hC]; exact hfail
    · rw [hP, hfb']; rfl
  · rw [hP]
    split
    · rfl
    · rename_i h
      exact not_not.mp h

/-- Claim C4, evaluated at its failing input: with both calibration files present the primary
load succeeds and the calibrated flag is raised, yet the fallback file is read as well
and the driver ends with the fallback's camera properties, not the primary's. -/
theorem LoadCalibrationFile_fallback_replaces_primary :
    (LoadFromFile twoFilesDriver (GetCalibrationFileFullPath twoFilesDriver)).2 = true ∧
    (LoadFromFile twoFilesDriver (GetCalibrationFileFullPath twoFilesDriver)).1.CameraProperties
      = { Resolution := { X := 2, Y := 1 }, Intrinsics := [1] } ∧
    (LoadCalibrationFile sampleEnv twoFilesDriver).bCalibrated = true ∧
    Event.loadFromFile "default.xml" true
      ∈ newEvents twoFilesDriver (LoadCalibrationFile sampleEnv twoFilesDriver) ∧
    (LoadCalibrationFile sampleEnv twoFilesDriver).CameraProperties
      = { Resolution := { X := 2, Y := 1 }, Intrinsics := [2] } ∧
    (LoadCalibrationFile sampleEnv twoFilesDriver).CameraProperties
      ≠ (LoadFromFile twoFilesDriver (GetCalibrationFileFullPath twoFilesDriver)).1.CameraProperties := by
  refine ⟨by decide, by decide, by decide, by decide, by decide, by decide⟩

/-! ## The stages of the loop body -/

theorem isFrameEvent_quiet {e : Event} (h : isFrameEvent e = true) :
    isNotification e = false ∧ isSaveToFile e = false ∧ e ≠ Event.processFrame := by
  cases e <;> simp_all [isFrameEvent, isNotification, isSaveToFile]

theorem trackingStage_spec (env : Collaborators σ τ) (d : UAURDriverOpenCV σ τ) (frame : Mat) :
    ∃ evs, (trackingStage env d frame).Trace = d.Trace ++ evs ∧
      (∀ e ∈ evs, isFrameEvent e = true) ∧
      calibrationView (trackingStage env d frame) = calibrationView d ∧
      (trackingStage env d frame).bConnected = d.bConnected := by
  by_cases ht : d.bPerformOrientationTracking = true
  · by_cases hm : (env.trackerDetectMarkers d.Tracker frame).2.1 = true
    · refine ⟨[.detectMarkers true, .acquire .OrientationLock, .storeNewOrientation,
        .release .OrientationLock], ?_, ?_, ?_, ?_⟩
      · simp [trackingStage, ht, hm, StoreNewOrientation, emit]
      · intro e he
        simp at he
        rcases he with h | h | h | h <;> subst h <;> rfl
      · simp [trackingStage, ht, hm, StoreNewOrientation, emit, calibrationView]
      · simp [trackingStage, ht, hm, StoreNewOrientation, emit]
    · refine ⟨[.detectMarkers false], ?_, ?_, ?_, ?_⟩
      · simp [trackingStage, ht, hm, emit]
      · intro e he
        simp at he
        subst he
        rfl
      · simp [trackingStage, ht, hm, emit, calibrationView]
      · simp [trackingStage, ht, hm, emit]
  · refine ⟨[], ?_, ?_, ?_, ?_⟩
    · simp [trackingStage, ht]
    · intro e he
      simp at he
    · simp [trackingStage, ht]
    · simp [trackingStage, ht]

theorem publishStage_spec (d : UAURDriverOpenCV σ τ) (frame : Mat) :
    ∃ evs, (publishStage d frame).Trace = d.Trace ++ evs ∧
      (∀ e ∈ evs, isFrameEvent e = true) ∧
      calibrationView (publishStage d frame) = calibrationView d ∧
      (publishStage d frame).bConnected = d.bConnected := by
  refine ⟨_, publishStage_trace d frame, ?_, rfl, rfl⟩
  intro e he
  rw [List.mem_append] at he
  rcases he with he | he
  · obtain ⟨t, _, rfl⟩ := List.mem_map.mp he
    rfl
  · simp at he
    rcases he with h | h | h <;> subst h <;> rfl

theorem frameStages_spec (env : Collaborators σ τ) (d : UAURDriverOpenCV σ τ) (frame : Mat) :
    ∃ evs, (publishStage (trackingStage env d frame) frame).Trace = d.Trace ++ evs ∧
      (∀ e ∈ evs, isFrameEvent e = true) ∧
      calibrationView (publishStage (trackingStage env d frame) frame) = calibrationView d ∧
      (publishStage (trackingStage env d frame) frame).bConnected = d.bConnected := by
  obtain ⟨e1, ht1, hq1, hv1, hc1⟩ := trackingStage_spec env d frame
  obtain ⟨e2, ht2, hq2, hv2, hc2⟩ := publishStage_spec (trackingStage env d frame) frame
  refine ⟨e1 ++ e2, ?_, ?_, ?_, ?_⟩
  · rw [ht2, ht1, List.append_assoc]
  · intro e he
    rcases List.mem_append.mp he with h | h
    · exact hq1 e h
    · exact hq2 e h
  · rw [hv2, hv1]
  · rw [hc2, hc1]

theorem calibrationStage_idle (env : Collaborators σ τ) (d : UAURDriverOpenCV σ τ)
    (frame : Mat) (time : Int) (hidle : d.bCalibrationInProgress = false) :
    calibrationStage env d frame time = emit d (.isCalibrationInProgress false) := by
  simp [calibrationStage, IsCalibrationInProgress, hidle, emit]

theorem calibrationStage_unfinished (env : Collaborators σ τ) (d : UAURDriverOpenCV σ τ)
    (frame : Mat) (time : Int) (hprog : d.bCalibrationInProgress = true)
    (hfin : env.calibIsFinished (env.calibProcessFrame d.CalibrationProcess frame time) = false) :
    calibrationStage env d frame time =
      { d with
        CalibrationProcess := env.calibProcessFrame d.CalibrationProcess frame time
        Trace := d.Trace ++
          [.isCalibrationInProgress true, .acquire .CalibrationLock, .release .CalibrationLock,
           .processFrame, .isFinished false] } := by
  simp [calibrationStage, IsCalibrationInProgress, hprog, hfin, emit]

theorem calibrationStage_finished (env : Collaborators σ τ) (d : UAURDriverOpenCV σ τ)
    (frame : Mat) (time : Int) (hprog : d.bCalibrationInProgress = true)
    (hfin : env.calibIsFinished (env.calibProcessFrame d.CalibrationProcess frame time) = true) :
    calibrationView (calibrationStage env d frame time)
      = (env.calibProcessFrame d.CalibrationProcess frame time,
         env.calibGetCameraProperties (env.calibProcessFrame d.CalibrationProcess frame time),
         true, false, d.CalibrationFileFullPath,
         Function.update d.Files d.CalibrationFileFullPath
           (some (env.calibGetCameraProperties
             (env.calibProcessFrame d.CalibrationProcess frame time)))) ∧
    (calibrationStage env d frame time).bConnected = d.bConnected ∧
    (calibrationStage env d frame time).Trace
      = d.Trace ++
          [.isCalibrationInProgress true, .acquire .CalibrationLock, .release .CalibrationLock,
           .processFrame, .isFinished true,
           .saveToFile d.CalibrationFileFullPath,
           .printToLog, .trackerSetCameraProperties,
           .setFrameResolution (env.calibGetCameraProperties
             (env.calibProcessFrame d.CalibrationProcess frame time)).Resolution,
           .notifyCameraParametersChange
             { bConnected := d.bConnected
               bCalibrated := true
               bCalibrationInProgress := false
               CameraProperties := env.calibGetCameraProperties
                 (env.calibProcessFrame d.CalibrationProcess frame time)
               SavedCalibration := some (env.calibGetCameraProperties
                 (env.calibProcessFrame d.CalibrationProcess frame time)) },
           .notifyCalibrationStatusChange
             { bConnected := d.bConnected
               bCalibrated := true
               bCalibrationInProgress := false
               CameraProperties := env.calibGetCameraProperties
                 (env.calibProcessFrame d.CalibrationProcess frame time)
               SavedCalibration := some (env.calibGetCameraProperties
                 (env.calibProcessFrame d.CalibrationProcess frame time)) }] := by
  refine ⟨?_, ?_, ?_⟩ <;>
  simp [calibrationStage, IsCalibrationInProgress, hprog, hfin, emit, OnCalibrationFinished,
    SaveToFile, GetCalibrationFileFullPath, OnCameraPropertiesChange, SetFrameResolution,
    GetResolution, NotifyCameraParametersChange, NotifyCalibrationStatusChange, observe,
    calibrationView]

theorem loopBody_mismatch (env : Collaborators σ τ) (w : FWorkerRunnable σ τ) (inp : LoopInput)
    (hsize : sizeMismatch w.Driver inp.frame = true) :
    loopBody env w inp =
      { w with
        CapturedFrame := inp.frame
        Driver := emit (emit w.Driver .captureFrame)
          (.log .Error (.unexpectedFrameSize inp.frame.cols inp.frame.rows
            w.Driver.Resolution.X w.Driver.Resolution.Y)) } := by
  have h' : sizeMismatch (emit w.Driver .captureFrame) inp.frame = true := hsize
  simp [loopBody, h', Mat.size]
  rfl

theorem loopBody_idle (env : Collaborators σ τ) (w : FWorkerRunnable σ τ) (inp : LoopInput)
    (hidle : w.Driver.bCalibrationInProgress = false) :
    ∃ evs, (loopBody env w inp).Driver.Trace = w.Driver.Trace ++ evs ∧
      Event.processFrame ∉ evs ∧
      calibrationView (loopBody env w inp).Driver = calibrationView w.Driver := by
  by_cases hsize : sizeMismatch w.Driver inp.frame = true
  · rw [loopBody_mismatch env w inp hsize]
    refine ⟨[.captureFrame, .log .Error (.unexpectedFrameSize inp.frame.cols inp.frame.rows
      w.Driver.Resolution.X w.Driver.Resolution.Y)], ?_, ?_, rfl⟩
    · simp [emit]
    · simp
  · have hsize' : sizeMismatch w.Driver inp.frame = false := by simpa using hsize
    have hidle' : (emit w.Driver .captureFrame).bCalibrationInProgress = false := hidle
    rw [loopBody_valid env w inp hsize', calibrationStage_idle env _ inp.frame inp.time hidle']
    obtain ⟨evs, ht, hq, hv, _⟩ := frameStages_spec env
      (emit (emit w.Driver .captureFrame) (.isCalibrationInProgress false)) inp.frame
    refine ⟨[.captureFrame, .isCalibrationInProgress false] ++ evs, ?_, ?_, ?_⟩
    · show (publishStage _ _).Trace = _
      rw [ht]
      simp [emit]
    · intro hmem
      rcases List.mem_append.mp hmem with h | h
      · simp at h
      · exact (isFrameEvent_quiet (hq _ h)).2.2 rfl
    · show calibrationView (publishStage _ _) = _
      rw [hv]
      rfl

theorem processFrames_idle (env : Collaborators σ τ) (inputs : List LoopInput) :
    ∀ w : FWorkerRunnable σ τ, w.Driver.bCalibrationInProgress = false →
      ∃ evs, (processFrames env w inputs).Driver.Trace = w.Driver.Trace ++ evs ∧
        Event.processFrame ∉ evs ∧
        calibrationView (processFrames env w inputs).Driver = calibrationView w.Driver := by
  induction inputs with
  | nil =>
    intro w _
    exact ⟨[], by simp [processFrames], by simp, rfl⟩
  | cons inp rest ih =>
    intro w hidle
    obtain ⟨e1, ht1, hn1, hv1⟩ := loopBody_idle env w inp hidle
    have hidle1 : (loopBody env w inp).Driver.bCalibrationInProgress = false := by
      have := congrArg (fun v => v.2.2.2.1) hv1
      simpa [calibrationView, hidle] using this
    obtain ⟨e2, ht2, hn2, hv2⟩ := ih (loopBody env w inp) hidle1
    refine ⟨e1 ++ e2, ?_, ?_, ?_⟩
    · show (processFrames env (loopBody env w inp) rest).Driver.Trace = _
      rw [ht2, ht1, List.append_assoc]
    · intro hmem
      rcases List.mem_append.mp hmem with h | h
      · exact hn1 h
      · exact hn2 h
    · show calibrationView (processFrames env (loopBody env w inp) rest).Driver = _
      rw [hv2, hv1]

theorem Run_loop_idle (env : Collaborators σ τ) (inputs : List LoopInput) :
    ∀ w w' : FWorkerRunnable σ τ, w.Driver.bCalibrationInProgress = false →
      Run_loop env inputs w = some w' →
      ∃ evs, w'.Driver.Trace = w.Driver.Trace ++ evs ∧
        Event.processFrame ∉ evs ∧
        calibrationView w'.Driver = calibrationView w.Driver := by
  induction inputs with
  | nil =>
    intro w w' _ hrun
    by_cases hc : w.bContinue = true
    · simp [Run_loop, hc] at hrun
    · simp [Run_loop, hc] at hrun
      subst hrun
      exact ⟨[], by simp, by simp, rfl⟩
  | cons inp rest ih =>
    intro w w' hidle hrun
    by_cases hc : w.bContinue = true
    · simp only [Run_loop, hc, if_true] at hrun
      obtain ⟨e1, ht1, hn1, hv1⟩ := loopBody_idle env w inp hidle
      have hdrv : (observeStop inp (loopBody env w inp)).Driver = (loopBody env w inp).Driver := by
        unfold observeStop Stop
        split <;> rfl
      have hidle1 : (observeStop inp (loopBody env w inp)).Driver.bCalibrationInProgress
          = false := by
        rw [hdrv]
        have := congrArg (fun v => v.2.2.2.1) hv1
        simpa [calibrationView, hidle] using this
      obtain ⟨e2, ht2, hn2, hv2⟩ := ih _ w' hidle1 hrun
      rw [hdrv] at ht2 hv2
      refine ⟨e1 ++ e2, ?_, ?_, ?_⟩
      · rw [ht2, ht1, List.append_assoc]
      · intro hmem
        rcases List.mem_append.mp hmem with h | h
        · exact hn1 h
        · exact hn2 h
      · rw [hv2, hv1]
    · simp [Run_loop, hc] at hrun
      subst hrun
      exact ⟨[], by simp, by simp, rfl⟩

/-! ## Claims on calibration -/

/-- Claim C7: for every driver state, `CancelCalibration` resets the calibration process,
leaves the calibration-in-progress flag false and notifies the calibration status once,
all under `CalibrationLock`; and whatever frames the worker processes afterwards (with no
`StartCalibration` in between), whether one by one or through the worker loop until it
stops, `ProcessFrame` is not invoked and the calibration process, the camera properties,
the calibrated flag and the calibration-in-progress flag stay as `CancelCalibration`
left them. -/
theorem CancelCalibration_then_idle (env : Collaborators σ τ) (w : FWorkerRunnable σ τ)
    (inputs : List LoopInput) :
    IsCalibrationInProgress (CancelCalibration env w.Driver) = false ∧
    (CancelCalibration env w.Driver).CalibrationProcess
      = env.calibReset w.Driver.CalibrationProcess ∧
    newEvents w.Driver (CancelCalibration env w.Driver)
      = [.acquire .CalibrationLock, .calibrationReset,
         .notifyCalibrationStatusChange
           { observe w.Driver with bCalibrationInProgress := false },
         .release .CalibrationLock] ∧
    (newEvents w.Driver (CancelCalibration env w.Driver)).countP isCalibrationNotification = 1 ∧
    (CancelCalibration env w.Driver).CameraProperties = w.Driver.CameraProperties ∧
    (CancelCalibration env w.Driver).bCalibrated = w.Driver.bCalibrated ∧
    Event.processFrame ∉ newEvents (CancelCalibration env w.Driver)
      (processFrames env { w with Driver := CancelCalibration env w.Driver } inputs).Driver ∧
    (processFrames env { w with Driver := CancelCalibration env w.Driver } inputs).Driver.CalibrationProcess
      = (CancelCalibration env w.Driver).CalibrationProcess ∧
    (processFrames env { w with Driver := CancelCalibration env w.Driver } inputs).Driver.CameraProperties
      = (CancelCalibration env w.Driver).CameraProperties ∧
    (processFrames env { w with Driver := CancelCalibration env w.Driver } inputs).Driver.bCalibrated
      = (CancelCalibration env w.Driver).bCalibrated ∧
    IsCalibrationInProgress
      (processFrames env { w with Driver := CancelCalibration env w.Driver } inputs).Driver = false ∧
    (∀ w', Run_loop env inputs { w with Driver := CancelCalibration env w.Driver } = some w' →
      Event.processFrame ∉ newEvents (CancelCalibration env w.Driver) w'.Driver ∧
      w'.Driver.CalibrationProcess = (CancelCalibration env w.Driver).CalibrationProcess ∧
      w'.Driver.CameraProperties = (CancelCalibration env w.Driver).CameraProperties ∧
      w'.Driver.bCalibrated = (CancelCalibration env w.Driver).bCalibrated ∧
      IsCalibrationInProgress w'.Driver = false) := by
  have hidle : (CancelCalibration env w.Driver).bCalibrationInProgress = false := by
    simp [CancelCalibration, NotifyCalibrationStatusChange, emit]
  have htrace : newEvents w.Driver (CancelCalibration env w.Driver)
      = [.acquire .CalibrationLock, .calibrationReset,
         .notifyCalibrationStatusChange
           { observe w.Driver with bCalibrationInProgress := false },
         .release .CalibrationLock] := by
    apply newEvents_of_trace
    simp [CancelCalibration, NotifyCalibrationStatusChange, emit, observe]
  obtain ⟨evs, ht, hn, hv⟩ := processFrames_idle env inputs
    { w with Driver := CancelCalibration env w.Driver } hidle
  refine ⟨hidle, ?_, htrace, ?_, ?_, ?_, ?_, ?_, ?_, ?_, ?_, ?_⟩
  · simp [CancelCalibration, NotifyCalibrationStatusChange, emit]
  · rw [htrace]
    simp [List.countP_cons, isCalibrationNotification]
  · simp [CancelCalibration, NotifyCalibrationStatusChange, emit]
  · simp [CancelCalibration, NotifyCalibrationStatusChange, emit]
  · rw [newEvents_of_trace ht]
    exact hn
  · exact congrArg (fun v => v.1) hv
  · exact congrArg (fun v => v.2.1) hv
  · exact congrArg (fun v => v.2.2.1) hv
  · have := congrArg (fun v => v.2.2.2.1) hv
    exact this.trans hidle
  · intro w' hrun
    obtain ⟨evs', ht', hn', hv'⟩ := Run_loop_idle env inputs
      { w with Driver := CancelCalibration env w.Driver } w' hidle hrun
    refine ⟨?_, congrArg (fun v => v.1) hv', congrArg (fun v => v.2.1) hv',
      congrArg (fun v => v.2.2.1) hv', ?_⟩
    · rw [newEvents_of_trace ht']
      exact hn'
    · have := congrArg (fun v => v.2.2.2.1) hv'
      exact this.trans hidle

theorem filter_quiet_nil {evs : List Event} (f : Event → Bool)
    (hquiet : ∀ e ∈ evs, f e = false) : evs.filter f = [] := by
  rw [List.filter_eq_nil_iff]
  intro e he
  simp [hquiet e he]

/-- Claim C8: when the worker processes a frame of the expected size while calibration is in
progress, `ProcessFrame` is invoked on it.  If `IsFinished()` is true right after, then
at the end of the turn `CameraProperties` equals `CalibrationProcess.GetCameraProperties()`,
those properties are in the primary calibration file, the calibrated flag is true, the
calibration-in-progress flag is false, and the notifications of the turn are the
camera-parameters one followed by the calibration-status one, both fired when all of
this already holds.  If `IsFinished()` is false, the camera properties, the two flags
and the calibration files are unchanged, nothing is saved and nothing is notified. -/
theorem loopBody_finishes_calibration (env : Collaborators σ τ) (w : FWorkerRunnable σ τ)
    (inp : LoopInput) (hprog : IsCalibrationInProgress w.Driver = true)
    (hsize : sizeMismatch w.Driver inp.frame = false) :
    Event.processFrame ∈ newEvents w.Driver (loopBody env w inp).Driver ∧
    (loopBody env w inp).Driver.CalibrationProcess
      = env.calibProcessFrame w.Driver.CalibrationProcess inp.frame inp.time ∧
    (if env.calibIsFinished
          (env.calibProcessFrame w.Driver.CalibrationProcess inp.frame inp.time) = true then
      (loopBody env w inp).Driver.CameraProperties
        = env.calibGetCameraProperties (loopBody env w inp).Driver.CalibrationProcess ∧
      (loopBody env w inp).Driver.Files (GetCalibrationFileFullPath w.Driver)
        = some (env.calibGetCameraProperties (loopBody env w inp).Driver.CalibrationProcess) ∧
      (newEvents w.Driver (loopBody env w inp).Driver).filter isSaveToFile
        = [.saveToFile (GetCalibrationFileFullPath w.Driver)] ∧
      (loopBody env w inp).Driver.bCalibrated = true ∧
      IsCalibrationInProgress (loopBody env w inp).Driver = false ∧
      (newEvents w.Driver (loopBody env w inp).Driver).filter isNotification
        = [.notifyCameraParametersChange
             { bConnected := w.Driver.bConnected
               bCalibrated := true
               bCalibrationInProgress := false
               CameraProperties := env.calibGetCameraProperties
                 (env.calibProcessFrame w.Driver.CalibrationProcess inp.frame inp.time)
               SavedCalibration := some (env.calibGetCameraProperties
                 (env.calibProcessFrame w.Driver.CalibrationProcess inp.frame inp.time)) },
           .notifyCalibrationStatusChange
             { bConnected := w.Driver.bConnected
               bCalibrated := true
               bCalibrationInProgress := false
               CameraProperties := env.calibGetCameraProperties
                 (env.calibProcessFrame w.Driver.CalibrationProcess inp.frame inp.time)
               SavedCalibration := some (env.calibGetCameraProperties
                 (env.calibProcessFrame w.Driver.CalibrationProcess inp.frame inp.time)) }]
     else
      (loopBody env w inp).Driver.CameraProperties = w.Driver.CameraProperties ∧
      (loopBody env w inp).Driver.Files = w.Driver.Files ∧
      (newEvents w.Driver (loopBody env w inp).Driver).filter isSaveToFile = [] ∧
      (loopBody env w inp).Driver.bCalibrated = w.Driver.bCalibrated ∧
      IsCalibrationInProgress (loopBody env w inp).Driver = true ∧
      (newEvents w.Driver (loopBody env w inp).Driver).filter isNotification = []) := by
  have hprog' : (emit w.Driver .captureFrame).bCalibrationInProgress = true := hprog
  have hdrv : (loopBody env w inp).Driver
      = publishStage (trackingStage env
          (calibrationStage env (emit w.Driver .captureFrame) inp.frame inp.time) inp.frame)
          inp.frame := by
    rw [loopBody_valid env w inp hsize]
  obtain ⟨evs, ht, hq, hv, hc⟩ := frameStages_spec env
    (calibrationStage env (emit w.Driver .captureFrame) inp.frame inp.time) inp.frame
  have hqN : ∀ e ∈ evs, isNotification e = false := fun e he => (isFrameEvent_quiet (hq e he)).1
  have hqS : ∀ e ∈ evs, isSaveToFile e = false := fun e he => (isFrameEvent_quiet (hq e he)).2.1
  rw [← hdrv] at ht hv hc
  generalize (loopBody env w inp).Driver = d2 at ht hv hc ⊢
  by_cases hfin : env.calibIsFinished
      (env.calibProcessFrame w.Driver.CalibrationProcess inp.frame inp.time) = true
  · obtain ⟨cv, _, ct⟩ := calibrationStage_finished env (emit w.Driver .captureFrame)
      inp.frame inp.time hprog' hfin
    rw [cv] at hv
    rw [ct] at ht
    have hN : newEvents w.Driver d2 = _ := newEvents_of_trace (by
      rw [ht]; simp only [emit, List.append_assoc]; rfl)
    simp only [calibrationView, Prod.mk.injEq] at hv
    obtain ⟨h1, h2, h3, h4, _, h6⟩ := hv
    simp only [if_pos hfin]
    refine ⟨?_, h1, ?_, ?_, ?_, h3, h4, ?_⟩
    · rw [hN]; simp
    · rw [h1, h2]
    · rw [h1, h6]
      simp [GetCalibrationFileFullPath, emit]
    · rw [hN]
      simp [List.filter_cons, List.filter_append, isSaveToFile, filter_quiet_nil _ hqS,
        GetCalibrationFileFullPath, emit]
    · rw [hN]
      simp [List.filter_cons, List.filter_append, isNotification, filter_quiet_nil _ hqN, emit]
  · have hfin' : env.calibIsFinished
        (env.calibProcessFrame w.Driver.CalibrationProcess inp.frame inp.time) = false := by
      simpa using hfin
    rw [calibrationStage_unfinished env (emit w.Driver .captureFrame) inp.frame inp.time
      hprog' hfin'] at ht hv
    have hN : newEvents w.Driver d2 = _ := newEvents_of_trace (by
      rw [ht]; simp only [emit, List.append_assoc]; rfl)
    simp only [calibrationView, Prod.mk.injEq] at hv
    obtain ⟨h1, h2, h3, h4, _, h6⟩ := hv
    simp only [if_neg hfin]
    refine ⟨?_, h1, h2, h6, ?_, h3, ?_, ?_⟩
    · rw [hN]; simp
    · rw [hN]
      simp [List.filter_cons, List.filter_append, isSaveToFile, filter_quiet_nil _ hqS]
    · exact h4.trans hprog
    · rw [hN]
      simp [List.filter_cons, List.filter_append, isNotification, filter_quiet_nil _ hqN]

/-- Witness for C8: the sample worker, calibrating, receives the frame that completes the
calibration. -/
theorem loopBody_finishes_calibration_witness :
    IsCalibrationInProgress finishingWorker.Driver = true ∧
    sizeMismatch finishingWorker.Driver sampleInput.frame = false ∧
    (loopBody sampleEnv finishingWorker sampleInput).Driver.bCalibrated = true ∧
    IsCalibrationInProgress (loopBody sampleEnv finishingWorker sampleInput).Driver = false := by
  have h := (loopBody_finishes_calibration sampleEnv finishingWorker sampleInput rfl
    (by decide)).2.2
  rw [if_pos (by decide)] at h
  exact ⟨rfl, by decide, h.2.2.2.1, h.2.2.2.2.1⟩

/-- Claim C6, evaluated at its failing input: the sample worker, calibrating, receives a frame
of the expected size.  The calibration-in-progress decision is taken before
`CalibrationLock` is acquired, and the lock is released again before `ProcessFrame` and
`IsFinished` run: neither the decision nor `ProcessFrame` happens under the lock. -/
theorem loopBody_processFrame_outside_lock :
    IsCalibrationInProgress calibratingWorker.Driver = true ∧
    sizeMismatch calibratingWorker.Driver sampleInput.frame = false ∧
    newEvents calibratingWorker.Driver (loopBody sampleEnv calibratingWorker sampleInput).Driver
      = [.captureFrame, .isCalibrationInProgress true,
         .acquire .CalibrationLock, .release .CalibrationLock,
         .processFrame, .isFinished false,
         .writePixel 0 0 0, .writePixel 1 0 1,
         .acquire .FrameLock, .storeWorkerFrame, .release .FrameLock] ∧
    processFrameUnderLock false
      (newEvents calibratingWorker.Driver
        (loopBody sampleEnv calibratingWorker sampleInput).Driver) = false ∧
    decisionUnderLock false
      (newEvents calibratingWorker.Driver
        (loopBody sampleEnv calibratingWorker sampleInput).Driver) = false := by
  refine ⟨rfl, by decide, by decide, by decide, by decide⟩

theorem loopBody_calibrating_events (env : Collaborators σ τ) (w : FWorkerRunnable σ τ)
    (inp : LoopInput) (hprog : IsCalibrationInProgress w.Driver = true)
    (hsize : sizeMismatch w.Driver inp.frame = false) :
    ∃ rest, newEvents w.Driver (loopBody env w inp).Driver
      = [.captureFrame, .isCalibrationInProgress true,
         .acquire .CalibrationLock, .release .CalibrationLock, .processFrame] ++ rest := by
  have hprog' : (emit w.Driver .captureFrame).bCalibrationInProgress = true := hprog
  have hdrv : (loopBody env w inp).Driver
      = publishStage (trackingStage env
          (calibrationStage env (emit w.Driver .captureFrame) inp.frame inp.time) inp.frame)
          inp.frame := by
    rw [loopBody_valid env w inp hsize]
  obtain ⟨evs, ht, _, _, _⟩ := frameStages_spec env
    (calibrationStage env (emit w.Driver .captureFrame) inp.frame inp.time) inp.frame
  rw [← hdrv] at ht
  by_cases hfin : env.calibIsFinished
      (env.calibProcessFrame w.Driver.CalibrationProcess inp.frame inp.time) = true
  · obtain ⟨_, _, ct⟩ := calibrationStage_finished env (emit w.Driver .captureFrame)
      inp.frame inp.time hprog' hfin
    rw [ct] at ht
    exact ⟨_, newEvents_of_trace (by
      rw [ht]; simp only [emit, List.append_assoc]; rfl)⟩
  · have hfin' : env.calibIsFinished
        (env.calibProcessFrame w.Driver.CalibrationProcess inp.frame inp.time) = false := by
      simpa using hfin
    rw [calibrationStage_unfinished env (emit w.Driver .captureFrame) inp.frame inp.time
      hprog' hfin'] at ht
    exact ⟨_, newEvents_of_trace (by
      rw [ht]; simp only [emit, List.append_assoc]; rfl)⟩

theorem loopBody_calibrating_outside_lock (env : Collaborators σ τ) (w : FWorkerRunnable σ τ)
    (inp : LoopInput) (hprog : IsCalibrationInProgress w.Driver = true)
    (hsize : sizeMismatch w.Driver inp.frame = false) :
    processFrameUnderLock false (newEvents w.Driver (loopBody env w inp).Driver) = false ∧
    decisionUnderLock false (newEvents w.Driver (loopBody env w inp).Driver) = false := by
  obtain ⟨rest, h⟩ := loopBody_calibrating_events env w inp hprog hsize
  rw [h]
  simp [processFrameUnderLock, decisionUnderLock]

theorem stages_keep_resolution (env : Collaborators σ τ) (d : UAURDriverOpenCV σ τ)
    (frame : Mat) (time : Int) :
    (trackingStage env (calibrationStage env d frame time) frame).Resolution = d.Resolution := by
  have hcal : (calibrationStage env d frame time).Resolution = d.Resolution := by
    by_cases hprog : d.bCalibrationInProgress = true
    · by_cases hfin : env.calibIsFinished
          (env.calibProcessFrame d.CalibrationProcess frame time) = true
      · simp [calibrationStage, IsCalibrationInProgress, hprog, hfin, emit,
          OnCalibrationFinished, SaveToFile, OnCameraPropertiesChange, SetFrameResolution,
          NotifyCameraParametersChange, NotifyCalibrationStatusChange]
      · have hfin' : env.calibIsFinished
            (env.calibProcessFrame d.CalibrationProcess frame time) = false := by
          simpa using hfin
        rw [calibrationStage_unfinished env d frame time hprog hfin']
    · have hidle : d.bCalibrationInProgress = false := by simpa using hprog
      rw [calibrationStage_idle env d frame time hidle]
      rfl
  have htrack : ∀ d' : UAURDriverOpenCV σ τ,
      (trackingStage env d' frame).Resolution = d'.Resolution := by
    intro d'
    by_cases ht : d'.bPerformOrientationTracking = true
    · by_cases hm : (env.trackerDetectMarkers d'.Tracker frame).2.1 = true
      · simp [trackingStage, ht, hm, StoreNewOrientation, emit]
      · simp [trackingStage, ht, hm, emit]
    · simp [trackingStage, ht]
  rw [htrack, hcal]

theorem loopBody_size_check_still_holds (env : Collaborators σ τ) (w : FWorkerRunnable σ τ)
    (inp : LoopInput) (hsize : sizeMismatch w.Driver inp.frame = false) :
    sizeMismatch
      (trackingStage env (calibrationStage env (emit w.Driver .captureFrame) inp.frame inp.time)
        inp.frame) inp.frame = false := by
  have h := stages_keep_resolution env (emit w.Driver .captureFrame) inp.frame inp.time
  unfold sizeMismatch at hsize ⊢
  rw [h]
  exact hsize

end AUR
